import Mathlib

/-!
Shallow embedding of the conversational query-understanding engine of
`Product_3_Conversational_AI_Chatbot/chatbot_engine.py` (class
`RentalPropertyChatbot`), together with theorems settling the frozen claims
about it.

Modelling conventions:
* Python strings are `List Char` (`Str`); only ASCII case-mapping is modelled
  (all inputs of interest are ASCII).
* Python floats are `ℚ`; the numeric formatting helpers round half away from
  zero where CPython rounds half to even — no claim depends on the digits.
* Python `re` patterns are compiled to a small regular-expression AST `RE`
  and run by a backtracking matcher that reproduces `re.search` semantics
  (leftmost position wins, alternatives tried left to right, greedy/lazy
  quantifiers, one capture group, negative lookahead, `\b`, `^`).
* HTTP collaborators are an explicit `Oracle` of reply functions; `none`
  models a non-2xx/unreachable endpoint, which the source converts to an
  `{"error": ...}` payload at the call site.
* An uncaught Python exception is modelled by an `Option` result being
  `none`.
-/

namespace DatathonChat

abbrev Str := List Char

def s2l (s : String) : Str := s.data

/-- ASCII lower-casing, modelling Python `str.lower` on the ASCII inputs used
throughout the engine. -/
def lowC (c : Char) : Char :=
  if 65 ≤ c.toNat ∧ c.toNat ≤ 90 then Char.ofNat (c.toNat + 32) else c

def pyLower (s : Str) : Str := s.map lowC

/-- Python `\s` / `str.strip` whitespace set. -/
def isSpaceCh (c : Char) : Bool :=
  c == ' ' || c == '\t' || c == '\n' || c == '\r' || c == '\x0b' || c == '\x0c'

def pyStrip (s : Str) : Str :=
  ((s.dropWhile isSpaceCh).reverse.dropWhile isSpaceCh).reverse

/-- `begins pat s` : `pat` starts `s` (Python `s.startswith(pat)`). -/
def begins : Str → Str → Bool
  | [], _ => true
  | _ :: _, [] => false
  | p :: ps, c :: cs => p == c && begins ps cs

/-- `hasSub pat s` : `pat` occurs in `s` (Python `pat in s`). -/
def hasSub (pat : Str) : Str → Bool
  | [] => begins pat []
  | c :: t => begins pat (c :: t) || hasSub pat t

def isDigitC (c : Char) : Bool := c.isDigit

def isWordC (c : Char) : Bool := c.isAlphanum || c == '_'

/-! ## A small regular-expression engine

`RE` covers exactly the constructs appearing in the patterns of the source.
Matching returns, in backtracking priority order, the list of possible
outcomes; taking the head of the list at the leftmost successful position
is precisely the match that CPython `re.search` picks.
-/

inductive RE where
  /-- matches the empty string -/
  | eps : RE
  /-- one character satisfying the class -/
  | cls : (Char → Bool) → RE
  | seq : RE → RE → RE
  /-- alternation, left alternative preferred -/
  | alt : RE → RE → RE
  /-- Kleene star; `true` = greedy, `false` = lazy -/
  | star : Bool → RE → RE
  /-- capture group (patterns here use at most one) -/
  | grp : RE → RE
  /-- negative lookahead `(?!...)` -/
  | nla : RE → RE
  /-- word boundary `\b` -/
  | bndry : RE
  /-- start of input `^` -/
  | bol : RE

/-- One matching outcome: last consumed character (context for `\b`),
remaining input, captured group if any. -/
abbrev MRes := Option Char × Str × Option Str

def wordish : Option Char → Bool
  | none => false
  | some c => isWordC c

/-- Backtracking matcher. `fuel` only bounds recursion depth (it is
decremented on every recursive call and chosen generously by `reRun`);
within that bound the outcome list is exactly the backtracking order of
the CPython engine on these patterns. -/
def matF : Nat → RE → Option Char → Str → List MRes
  | 0, _, _, _ => []
  | _ + 1, .eps, prev, s => [(prev, s, none)]
  | _ + 1, .cls p, _, s =>
    match s with
    | [] => []
    | c :: rest => if p c then [(some c, rest, none)] else []
  | f + 1, .seq a b, prev, s =>
    (matF f a prev s).flatMap fun (p1, s1, c1) =>
      (matF f b p1 s1).map fun (p2, s2, c2) => (p2, s2, c1 <|> c2)
  | f + 1, .alt a b, prev, s => matF f a prev s ++ matF f b prev s
  | f + 1, .star g r, prev, s =>
    let step :=
      (matF f r prev s).flatMap fun (p1, s1, c1) =>
        if s1.length < s.length then
          (matF f (.star g r) p1 s1).map fun (p2, s2, c2) => (p2, s2, c1 <|> c2)
        else []
    if g then step ++ [(prev, s, none)] else (prev, s, none) :: step
  | f + 1, .grp r, prev, s =>
    (matF f r prev s).map fun (p1, s1, _) =>
      (p1, s1, some (s.take (s.length - s1.length)))
  | f + 1, .nla r, prev, s =>
    if (matF f r prev s).isEmpty then [(prev, s, none)] else []
  | _ + 1, .bndry, prev, s =>
    if wordish prev != wordish s.head? then [(prev, s, none)] else []
  | _ + 1, .bol, prev, s => if prev.isNone then [(prev, s, none)] else []

def reSize : RE → Nat
  | .eps => 1
  | .cls _ => 1
  | .seq a b => reSize a + reSize b + 1
  | .alt a b => reSize a + reSize b + 1
  | .star _ r => reSize r + 1
  | .grp r => reSize r + 1
  | .nla r => reSize r + 1
  | .bndry => 1
  | .bol => 1

/-- Run the matcher at one position with depth fuel that the structure of
the recursion (star iterations strictly consume input, everything else
descends into a structurally smaller pattern) can never exhaust. -/
def reRun (re : RE) (prev : Option Char) (s : Str) : List MRes :=
  matF ((s.length + 1) * (reSize re + 2) + 2) re prev s

/-- `re.search`: scan positions left to right; at the first position with a
match, return (captured group or whole-match default `[]`, end index). -/
def reFindAux (re : RE) (prev : Option Char) (s : Str) (pos : Nat) :
    Option (Str × Nat) :=
  match (reRun re prev s).head? with
  | some (_, rem, cap) => some (cap.getD [], pos + (s.length - rem.length))
  | none =>
    match s with
    | [] => none
    | c :: rest => reFindAux re (some c) rest (pos + 1)

def reFind (re : RE) (s : Str) : Option (Str × Nat) := reFindAux re none s 0

def reSearch (re : RE) (s : Str) : Bool := (reFind re s).isSome

/-! ### Pattern combinators mirroring the `re` syntax used in the source -/

def chr (c : Char) : RE := .cls (· == c)

def rcat : List RE → RE
  | [] => .eps
  | [r] => r
  | r :: rs => .seq r (rcat rs)

def ror : List RE → RE
  | [] => .eps
  | [r] => r
  | r :: rs => .alt r (ror rs)

/-- literal string -/
def lstr (s : String) : RE := rcat (s.data.map chr)

/-- `(?:a|b|...)` over literal words -/
def kw (l : List String) : RE := ror (l.map lstr)

/-- case-insensitive literal character (for `re.IGNORECASE` patterns) -/
def chrCI (c : Char) : RE := .cls (fun x => lowC x == lowC c)

def lstrCI (s : String) : RE := rcat (s.data.map chrCI)

def kwCI (l : List String) : RE := ror (l.map lstrCI)

/-- `.` (no DOTALL: anything but newline) -/
def dotC : RE := .cls (fun c => c != '\n')

/-- greedy `.*` -/
def dotStar : RE := .star true dotC

/-- lazy `.*?` -/
def dotStarL : RE := .star false dotC

def dC : RE := .cls isDigitC

def wC : RE := .cls isWordC

def sC : RE := .cls isSpaceCh

/-- greedy `+` -/
def plus1 (r : RE) : RE := .seq r (.star true r)

/-- `\d+` -/
def dPlus : RE := plus1 dC

/-- `\w+` -/
def wPlus : RE := plus1 wC

/-- `\s+` -/
def sPlus : RE := plus1 sC

/-- `\s*` -/
def sStar : RE := .star true sC

/-- greedy `?` -/
def ropt (r : RE) : RE := .alt r .eps

/-- exactly `n` copies -/
def repN : Nat → RE → RE
  | 0, _ => .eps
  | n + 1, r => .seq r (repN n r)

/-- greedy `{n,}` -/
def atLeastN (n : Nat) (r : RE) : RE := .seq (repN n r) (.star true r)

/-- greedy `{0,n}` -/
def upToN : Nat → RE → RE
  | 0, _ => .eps
  | n + 1, r => .alt (.seq r (upToN n r)) .eps

def aposC : Char := Char.ofNat 39

/-! ## Pattern catalog (`RentalPropertyChatbot.intent_patterns` and friends)

Each `RE` below is the hand compilation of one pattern string of the source,
in the same order.  Where the dict literal of the source repeats the key
`low_gap`, Python keeps the first insertion position with the second
value, so only the second `low_gap` list exists at run time.
-/

/-- `[:\s]` -/
def colSp : RE := .cls (fun c => c == ':' || isSpaceCh c)

/-- `\d+\s*bhk` (priority check 1) -/
def bhkRE : RE := rcat [dPlus, sStar, lstr "bhk"]

/-- `(\d{4,}|\d+k)` -/
def numOrK : RE := .grp (.alt (atLeastN 4 dC) (.seq dPlus (chr 'k')))

/-- `(?:rent|rental)[:\s]{0,5}(\d{4,}|\d+k)` -/
def rentARE : RE := rcat [kw ["rent", "rental"], upToN 5 colSp, numOrK]

/-- `(\d{4,}|\d+k)[:\s]{0,5}(?:rent|rental)` -/
def rentBRE : RE := rcat [numOrK, upToN 5 colSp, kw ["rent", "rental"]]

/-- `average[:\s]+(?:rent|rental)` -/
def rentCRE : RE := rcat [lstr "average", plus1 colSp, kw ["rent", "rental"]]

/-- The `has_bhk` flag of `detect_intent`. -/
def has_bhk (ql : Str) : Bool := reSearch bhkRE ql

/-- The `has_rent` flag of `detect_intent` (disjunction of the three anchored
rent patterns). -/
def has_rent (ql : Str) : Bool :=
  reSearch rentARE ql || reSearch rentBRE ql || reSearch rentCRE ql

/-- `(?:safe|risk|grade|rating).*invest` -/
def p16aRE : RE := rcat [kw ["safe", "risk", "grade", "rating"], dotStar, lstr "invest"]

/-- `invest.*(?:safe|risk|grade|rating)` -/
def p16bRE : RE := rcat [lstr "invest", dotStar, kw ["safe", "risk", "grade", "rating"]]

/-- `is.*(?:palakkad|mumbai|pune|delhi|bangalore).*safe` -/
def p16cRE : RE :=
  rcat [lstr "is", dotStar, kw ["palakkad", "mumbai", "pune", "delhi", "bangalore"],
    dotStar, lstr "safe"]

/-- `(?:top|best|highest).*(?:1|one|single).*cit` -/
def pTop1RE : RE :=
  rcat [kw ["top", "best", "highest"], dotStar, kw ["1", "one", "single"], dotStar, lstr "cit"]

/-- `(?:worst|lowest|bottom).*(?:1|one|single).*cit` -/
def pBot1RE : RE :=
  rcat [kw ["worst", "lowest", "bottom"], dotStar, kw ["1", "one", "single"], dotStar, lstr "cit"]

/-- `(?:the|which|what).*cit.*(?:lowest|worst|least).*demand` -/
def pBotARE : RE :=
  rcat [kw ["the", "which", "what"], dotStar, lstr "cit", dotStar,
    kw ["lowest", "worst", "least"], dotStar, lstr "demand"]

/-- `(?:show|tell|give).*cit.*(?:lowest|worst).*demand` -/
def pBotBRE : RE :=
  rcat [kw ["show", "tell", "give"], dotStar, lstr "cit", dotStar,
    kw ["lowest", "worst"], dotStar, lstr "demand"]

/-- `(?:the|which|what).*cit.*(?:highest|best|most).*demand` -/
def pTopARE : RE :=
  rcat [kw ["the", "which", "what"], dotStar, lstr "cit", dotStar,
    kw ["highest", "best", "most"], dotStar, lstr "demand"]

/-- `(?:show|tell|give).*cit.*(?:highest|best|most).*demand` -/
def pTopBRE : RE :=
  rcat [kw ["show", "tell", "give"], dotStar, lstr "cit", dotStar,
    kw ["highest", "best", "most"], dotStar, lstr "demand"]

/-- `(?:top|best|highest|worst|lowest|bottom).*cit` -/
def pMultiRE : RE :=
  rcat [kw ["top", "best", "highest", "worst", "lowest", "bottom"], dotStar, lstr "cit"]

/-- `(?:worst|lowest|bottom)` -/
def pWlbRE : RE := kw ["worst", "lowest", "bottom"]

def greetingPats : List RE :=
  [rcat [.bol, .grp (kw ["hi", "hello", "hey", "greetings", "hola", "namaste"]), .bndry],
   rcat [lstr "good", sPlus, .grp (kw ["morning", "afternoon", "evening", "day"])],
   rcat [.bol, .grp (kw ["yo", "sup", "wassup"]), .bndry]]

def thankYouPats : List RE :=
  [.grp (kw ["thank", "thanks", "thx", "appreciate"]),
   lstr "grateful",
   rcat [lstr "you", dotStar, kw ["helped", "great", "awesome", "amazing"]]]

def goodbyePats : List RE :=
  [.grp (kw ["bye", "goodbye", "see you", "farewell", "later"]),
   rcat [lstr "have", dotStar, kw ["good", "nice"], dotStar, lstr "day"],
   lstr "take care"]

def demandPats : List RE :=
  [rcat [lstr "demand", dotStar, kw ["in", "for", "at"], sPlus, .grp wPlus],
   rcat [lstr "forecast", dotStar, kw ["in", "for", "at"], sPlus, .grp wPlus],
   rcat [lstr "rental", dotStar, lstr "demand", dotStar, .grp wPlus],
   rcat [lstr "how", dotStar, lstr "many", dotStar, kw ["in", "at"], sPlus, .grp wPlus],
   rcat [lstr "predict", dotStar, lstr "demand", dotStar, .grp wPlus],
   rcat [lstr "what", dotStar, lstr "demand", dotStar, .grp wPlus],
   rcat [.grp wPlus, dotStar, lstr "demand"],
   rcat [lstr "demand", dotStar, .grp wPlus],
   rcat [lstr "how", .star true (.cls (fun c => c == aposC || c == 's')), sPlus,
     ropt (kw ["is", "are"]), sStar, .grp wPlus, sPlus, kw ["doing", "performing"]],
   rcat [lstr "how", dotStar, kw ["is", "are"], dotStar, .grp wPlus, dotStar,
     kw ["doing", "market", "performing"]],
   rcat [.grp wPlus, dotStar, lstr "rental", dotStar, lstr "market"],
   rcat [lstr "tell", dotStar, kw ["me", "us"], dotStar, kw ["about", "demand"],
     dotStar, .grp wPlus],
   rcat [lstr "know", dotStar, lstr "demand", dotStar, .grp wPlus],
   rcat [lstr "what", dotStar, lstr "about", dotStar, .grp wPlus],
   rcat [kw ["and", "how"], dotStar, lstr "about", dotStar, .grp wPlus]]

def gapPats : List RE :=
  [rcat [lstr "gap", dotStar, kw ["in", "for", "at"], sPlus, .grp wPlus],
   rcat [lstr "supply", dotStar, lstr "demand", dotStar, .grp wPlus],
   rcat [lstr "opportunity", dotStar, kw ["in", "at"], sPlus, .grp wPlus],
   rcat [lstr "invest", dotStar, kw ["in", "at"], sPlus, .grp wPlus],
   rcat [lstr "which", dotStar, kw ["area", "locality"], dotStar, .grp wPlus],
   rcat [lstr "best", dotStar, kw ["area", "locality"], dotStar, .grp wPlus],
   rcat [lstr "should", dotStar, lstr "invest", dotStar, .grp wPlus],
   rcat [kw ["is", "are"], dotStar, .grp wPlus, dotStar, lstr "good", dotStar, lstr "invest"],
   rcat [kw ["where", "which"], dotStar, kw ["should", "can"], dotStar, lstr "invest",
     dotStar, .grp wPlus],
   rcat [.grp wPlus, dotStar, kw ["investment", "invest"], dotStar, kw ["opportunit", "area"]],
   rcat [kw ["show", "find", "get"], dotStar, kw ["opportunit", "invest"], dotStar, .grp wPlus],
   rcat [kw ["best", "top", "good"], dotStar, kw ["area", "localit", "place"], dotStar,
     kw ["invest", "buy"], dotStar, .grp wPlus],
   rcat [.grp wPlus, dotStar, kw ["gap", "supply", "demand"], dotStar, lstr "analys"],
   rcat [kw ["what", "tell", "show"], dotStar, kw ["about", "me"], dotStar, lstr "gap",
     dotStar, lstr "analys"],
   rcat [lstr "gap", dotStar, lstr "analys", dotStar, .grp wPlus],
   rcat [kw ["demand", "supply"], dotStar, lstr "gap", dotStar, .grp wPlus],
   rcat [lstr "analyz", dotStar, lstr "gap", dotStar, .grp wPlus],
   rcat [lstr "where", dotStar, kw ["invest", "buy"], dotStar, .grp wPlus],
   rcat [.grp wPlus, dotStar, lstr "opportunities"],
   rcat [.grp wPlus, dotStar, lstr "investment"],
   rcat [lstr "undersuppl", dotStar, kw ["area", "localit"], dotStar, .grp wPlus],
   rcat [kw ["are", "any"], dotStar, lstr "undersuppl", dotStar, .grp wPlus],
   rcat [lstr "show", dotStar, lstr "undersuppl", dotStar, .grp wPlus],
   rcat [lstr "which", dotStar, lstr "undersuppl", dotStar, .grp wPlus],
   rcat [lstr "high", dotStar, lstr "demand", dotStar, kw ["area", "localit"],
     dotStar, .grp wPlus],
   rcat [dPlus, sStar, lstr "bhk", dotStar, kw ["in", "at", "for"], sPlus, .grp wPlus],
   rcat [kw ["with", "having"], sStar, dPlus, sStar, lstr "bhk"],
   rcat [lstr "bhk", dotStar, dPlus, dotStar, .grp wPlus],
   rcat [kw ["rent", "rental"], dotStar, dPlus, dotStar, .grp wPlus],
   rcat [lstr "average", dotStar, lstr "rent", dotStar, dPlus],
   rcat [dPlus, ropt (chr 'k'), sStar, kw ["rent", "rental"]],
   rcat [kw ["area", "locality"], dotStar, dPlus]]

/-- The run-time value of `intent_patterns` at key `low_gap` (the second literal
for the duplicated key). -/
def lowGapPats : List RE :=
  [rcat [lstr "low", dotStar, lstr "gap", dotStar, .grp wPlus],
   rcat [lstr "oversuppl", dotStar, .grp wPlus],
   rcat [kw ["which", "what"], dotStar, kw ["area", "localit"], dotStar, lstr "oversuppl",
     dotStar, .grp wPlus],
   rcat [kw ["which", "what"], dotStar, kw ["area", "localit"], dotStar, lstr "low",
     dotStar, lstr "gap", dotStar, .grp wPlus],
   rcat [lstr "renter", dotStar, lstr "market", dotStar, .grp wPlus],
   rcat [lstr "buyer", dotStar, lstr "market", dotStar, .grp wPlus],
   rcat [kw ["show", "find"], dotStar, lstr "oversuppl", dotStar, .grp wPlus],
   rcat [kw ["any", "are there"], dotStar, lstr "oversuppl", dotStar, .grp wPlus]]

def topCitiesPats : List RE :=
  [rcat [kw ["top", "best", "highest"], dotStar, ropt (kw ["5", "five", "10", "ten"]),
     dotStar, lstr "cit"],
   rcat [kw ["which", "what"], dotStar, kw ["best", "top"], dotStar, lstr "cit",
     dotStar, kw ["invest", "demand"]],
   rcat [kw ["rank", "list"], dotStar, lstr "cit", dotStar, kw ["demand", "invest"]],
   rcat [kw ["show", "give"], dotStar, kw ["top", "best"], dotStar, lstr "cit"],
   rcat [lstr "cit", dotStar, kw ["highest", "most"], dotStar, lstr "demand"]]

def bottomCitiesPats : List RE :=
  [rcat [kw ["worst", "lowest", "bottom"], dotStar, ropt (kw ["5", "five", "10", "ten"]),
     dotStar, lstr "cit"],
   rcat [kw ["which", "what"], dotStar, kw ["worst", "lowest", "bad"], dotStar, lstr "cit"],
   rcat [lstr "cit", dotStar, kw ["lowest", "least"], dotStar, lstr "demand"],
   rcat [kw ["avoid", "bad"], dotStar, lstr "cit", dotStar, lstr "invest"]]

def topCityPats : List RE :=
  [rcat [ror [lstr "top", lstr "best", lstr "highest", rcat [lstr "number", dotStar, chr '1'],
     lstr "#1"], dotStar, kw ["1", "one", "single"], dotStar, lstr "cit"],
   rcat [kw ["which", "what"], dotStar, kw ["is", "the"], dotStar, kw ["best", "top"],
     dotStar, kw ["single", "one", "1"], dotStar, lstr "cit"],
   rcat [kw ["best", "top"], dotStar, lstr "cit", dotStar, kw ["overall", "absolute"]],
   rcat [kw ["single", "one"], dotStar, kw ["best", "top"], dotStar, lstr "cit"]]

def bottomCityPats : List RE :=
  [rcat [kw ["worst", "lowest", "bottom", "last"], dotStar, kw ["1", "one", "single"],
     dotStar, lstr "cit"],
   rcat [kw ["which", "what"], dotStar, kw ["is", "the"], dotStar, kw ["worst", "lowest"],
     dotStar, kw ["single", "one", "1"], dotStar, lstr "cit"],
   rcat [kw ["worst", "lowest"], dotStar, lstr "cit", dotStar, kw ["overall", "absolute"]],
   rcat [kw ["single", "one"], dotStar, kw ["worst", "lowest"], dotStar, lstr "cit"],
   rcat [kw ["show", "give", "tell"], dotStar, ropt (kw ["the", "me"]), dotStar, lstr "cit",
     dotStar, kw ["with", "has"], dotStar, kw ["lowest", "worst"], dotStar, lstr "demand"],
   rcat [kw ["which", "what"], dotStar, lstr "cit", dotStar, kw ["has", "with"], dotStar,
     kw ["lowest", "worst", "least"], dotStar, lstr "demand"]]

def lowDemandPats : List RE :=
  [rcat [lstr "low", dotStar, lstr "demand", dotStar, .grp wPlus],
   rcat [lstr "least", dotStar, lstr "demand", dotStar, .grp wPlus],
   rcat [kw ["which", "what"], dotStar, kw ["area", "localit"], dotStar, lstr "low",
     dotStar, lstr "demand", dotStar, .grp wPlus],
   rcat [kw ["cheap", "affordable", "budget"], dotStar, kw ["area", "localit"],
     dotStar, .grp wPlus],
   rcat [lstr "where", dotStar, kw ["cheap", "affordable", "budget"], dotStar, .grp wPlus],
   rcat [.grp wPlus, dotStar, lstr "low", dotStar, lstr "demand"]]

def historicalPats : List RE :=
  [rcat [lstr "historical", dotStar, kw ["in", "for"], sPlus, .grp wPlus],
   rcat [lstr "past", dotStar, lstr "data", dotStar, .grp wPlus],
   rcat [lstr "trend", dotStar, kw ["in", "for"], sPlus, .grp wPlus],
   rcat [lstr "show", dotStar, lstr "history", dotStar, .grp wPlus]]

def helpPats : List RE :=
  [lstr "help",
   rcat [lstr "what", dotStar, lstr "can", dotStar, lstr "do"],
   rcat [lstr "how", dotStar, lstr "work"],
   lstr "guide",
   lstr "assist"]

def tenantQualityPats : List RE :=
  [rcat [lstr "tenant", dotStar, lstr "quality", dotStar, .grp wPlus],
   rcat [lstr "risk", dotStar, lstr "score", dotStar, .grp wPlus],
   rcat [lstr "invest", dotStar, lstr "grade", dotStar, .grp wPlus],
   rcat [lstr "quality", dotStar, lstr "tenant", dotStar, .grp wPlus],
   rcat [lstr "churn", dotStar, lstr "risk", dotStar, .grp wPlus],
   rcat [lstr "financial", dotStar, lstr "health", dotStar, .grp wPlus],
   rcat [lstr "safe", dotStar, lstr "invest", dotStar, .grp wPlus],
   rcat [lstr "how", dotStar, lstr "safe", dotStar, .grp wPlus],
   rcat [lstr "tenant", dotStar, lstr "profile", dotStar, .grp wPlus],
   rcat [lstr "quality", dotStar, lstr "adjusted", dotStar, .grp wPlus]]

/-- `intent_patterns` in dict-iteration order (duplicate `low_gap` key:
first position, second value). -/
def intentCatalog : List (String × List RE) :=
  [("greeting", greetingPats),
   ("thank_you", thankYouPats),
   ("goodbye", goodbyePats),
   ("demand_forecast", demandPats),
   ("gap_analysis", gapPats),
   ("low_gap", lowGapPats),
   ("top_cities", topCitiesPats),
   ("bottom_cities", bottomCitiesPats),
   ("top_city", topCityPats),
   ("bottom_city", bottomCityPats),
   ("low_demand", lowDemandPats),
   ("historical", historicalPats),
   ("help", helpPats),
   ("tenant_quality", tenantQualityPats)]

/-- `follow_up_patterns`. -/
def followUpCatalog : List (String × List RE) :=
  [("demand_forecast",
    [rcat [.bol, kw ["and", "what about", "how about"], dotStar, kw ["demand", "forecast"]],
     rcat [.bol, kw ["show", "tell"], dotStar, kw ["demand", "forecast"]],
     rcat [.bol, lstr "demand"],
     rcat [.bol, kw ["and", "what", "how"], sPlus, lstr "about"]]),
   ("gap_analysis",
    [rcat [.bol, kw ["and", "what about", "how about"], dotStar,
       kw ["gap", "invest", "opportunit"]],
     rcat [.bol, kw ["show", "tell"], dotStar, kw ["gap", "invest", "opportunit"]],
     rcat [.bol, kw ["where", "which"], dotStar, kw ["invest", "area", "localit"]],
     rcat [.bol, lstr "gap"],
     rcat [.bol, kw ["and", "what"], dotStar, ropt (lstr "the"), sStar, lstr "gap"]]),
   ("historical",
    [rcat [.bol, kw ["and", "what about", "how about"], dotStar,
       kw ["historical", "trend", "past"]],
     rcat [.bol, kw ["show", "tell"], dotStar, kw ["historical", "trend", "past", "history"]],
     rcat [.bol, kw ["historical", "trend"]]])]

/-- Month-name table `self.months` in dict order. -/
def monthsTable : List (Str × Nat) :=
  [(s2l "january", 1), (s2l "jan", 1),
   (s2l "february", 2), (s2l "feb", 2),
   (s2l "march", 3), (s2l "mar", 3),
   (s2l "april", 4), (s2l "apr", 4),
   (s2l "may", 5),
   (s2l "june", 6), (s2l "jun", 6),
   (s2l "july", 7), (s2l "jul", 7),
   (s2l "august", 8), (s2l "aug", 8),
   (s2l "september", 9), (s2l "sep", 9), (s2l "sept", 9),
   (s2l "october", 10), (s2l "oct", 10),
   (s2l "november", 11), (s2l "nov", 11),
   (s2l "december", 12), (s2l "dec", 12)]

/-- Static fallback city list of `_load_cities`. -/
def defaultCities : List Str :=
  [s2l "Mumbai", s2l "Delhi", s2l "Bangalore", s2l "Hyderabad", s2l "Chennai",
   s2l "Kolkata", s2l "Pune", s2l "Ahmedabad", s2l "Jaipur", s2l "Surat"]

end DatathonChat


namespace DatathonChat

/-! ## Entity extractors (`extract_*` methods) -/

def natOfDigits (l : Str) : Nat := l.foldl (fun acc c => acc * 10 + (c.toNat - 48)) 0

/-- `[A-Z]` -/
def upAZ : RE := .cls (fun c => 65 ≤ c.toNat ∧ c.toNat ≤ 90)

/-- `[a-z]` -/
def lowaz : RE := .cls (fun c => 97 ≤ c.toNat ∧ c.toNat ≤ 122)

/-- `[A-Z][a-z]+` -/
def capWord : RE := rcat [upAZ, plus1 lowaz]

/-- The fallback pattern of `extract_city`:
`(?:in|for|at|to)\s+([A-Z][a-z]+(?:-[A-Z][a-z]+)?)` (run on the raw query). -/
def cityFallbackRE : RE :=
  rcat [kw ["in", "for", "at", "to"], sPlus,
    .grp (rcat [capWord, ropt (rcat [chr '-', capWord])])]

/-- `ignored_words` of `extract_city` — the deny-list filtering the
fallback capture. -/
def ignoredWords : List Str :=
  [s2l "August", s2l "September", s2l "October", s2l "Mumbai", s2l "Delhi",
   s2l "Year", s2l "Month", s2l "Demand", s2l "Quality"]

/-- `city_variations` alias table. -/
def cityVariations : List (Str × Str) :=
  [(s2l "bombay", s2l "Mumbai"),
   (s2l "calcutta", s2l "Kolkata"),
   (s2l "madras", s2l "Chennai"),
   (s2l "bangalore", s2l "Bangalore"),
   (s2l "bengaluru", s2l "Bangalore")]

/-- Stage 1 of `extract_city`: case-insensitive substring match against the
known city list. -/
def cityDirect (cities : List Str) (ql : Str) : Option Str :=
  cities.find? (fun c => hasSub (pyLower c) ql)

/-- Stage 2 of `extract_city`: the alias table. -/
def cityVariation (ql : Str) : Option Str :=
  (cityVariations.find? (fun v => hasSub v.1 ql)).map (·.2)

/-- Stage 3 of `extract_city`: capitalized-word-after-preposition fallback
with the `ignored_words` deny-list. -/
def cityFallback (q : Str) : Option Str :=
  match reFind cityFallbackRE q with
  | some (cap, _) => if ignoredWords.contains cap then none else some cap
  | none => none

def extract_city (cities : List Str) (q : Str) : Option Str :=
  let ql := pyStrip (pyLower q)
  match cityDirect cities ql with
  | some c => some c
  | none =>
    match cityVariation ql with
    | some c => some c
    | none => cityFallback q

/-- `20\d{2}` -/
def yearRE : RE := .grp (rcat [chr '2', chr '0', dC, dC])

/-- `extract_date`; `now = (year, month)` models `datetime.now()`. -/
def extract_date (now : Nat × Nat) (q : Str) : Nat × Nat :=
  let year := match reFind yearRE q with
    | some (cap, _) => natOfDigits cap
    | none => now.1
  let ql := pyLower q
  let month := ((monthsTable.find? (fun m => hasSub m.1 ql)).map (·.2)).getD now.2
  (year, month)

def questionWords : List Str :=
  [s2l "Which", s2l "What", s2l "Where", s2l "How", s2l "Show", s2l "Tell", s2l "Find"]

/-- `([A-Z][a-z]+(?:\s+[A-Z][a-z]+)?)` -/
def capWords2 : RE := rcat [capWord, ropt (rcat [sPlus, capWord])]

def localityPats : List RE :=
  [.grp (rcat [lstr "Area", sPlus, dPlus]),
   rcat [kw ["in", "at"], sPlus, .grp capWords2],
   rcat [.grp capWords2, sPlus, kw ["area", "locality"]]]

def extract_locality (cities : List Str) (q : Str) : Option Str :=
  (localityPats.filterMap (fun p => (reFind p q).map (·.1))).find?
    (fun c => !questionWords.contains c && !cities.contains c)

/-- `(\d)\s*bhk` on the lower-cased query. -/
def extract_bhk (q : Str) : Option Str :=
  (reFind (rcat [.grp dC, sStar, lstr "bhk"]) (pyLower q)).map (·.1)

/-- any ASCII letter — `[A-Z]`/`[a-z]` under `re.IGNORECASE` -/
def letterC : RE :=
  .cls (fun c => (65 ≤ c.toNat ∧ c.toNat ≤ 90) ∨ (97 ≤ c.toNat ∧ c.toNat ≤ 122))

def capWordCI : RE := rcat [letterC, plus1 letterC]

def nameKw : RE := kwCI ["my name is", "i am", "i\x27m", "this is", "call me"]

/-- The two (IGNORECASE) introduction patterns of `extract_name`. -/
def namePats : List RE :=
  [rcat [nameKw, sPlus, .grp (rcat [capWordCI, .star true (rcat [sPlus, capWordCI]),
     ropt (rcat [sPlus, capWordCI])])],
   rcat [nameKw, sPlus, .grp capWordCI]]

def upC (c : Char) : Char :=
  if 97 ≤ c.toNat ∧ c.toNat ≤ 122 then Char.ofNat (c.toNat - 32) else c

/-- Python `str.capitalize`. -/
def pyCapitalize : Str → Str
  | [] => []
  | c :: t => upC c :: pyLower t

/-- Python `str.split()` (split on whitespace runs, no empty pieces). -/
def pySplitWs (s : Str) : List Str :=
  let rec go : Str → Str → List Str
    | [], acc => if acc.isEmpty then [] else [acc.reverse]
    | c :: t, acc =>
      if isSpaceCh c then
        if acc.isEmpty then go t [] else acc.reverse :: go t []
      else go t (c :: acc)
  go s []

def joinSep (sep : Str) : List Str → Str
  | [] => []
  | [x] => x
  | x :: rest => x ++ sep ++ joinSep sep rest

def extract_name (q : Str) : Option Str :=
  ((namePats.filterMap (fun p => (reFind p q).map (·.1))).head?).map
    (fun nm => joinSep (s2l " ") ((pySplitWs (pyStrip nm)).map pyCapitalize))

/-- `[\d,]` -/
def dcC : RE := .cls (fun c => isDigitC c || c == ',')

def dcPlus : RE := plus1 dcC

def dc4 : RE := atLeastN 4 dcC

/-- The 8 `extract_rent` patterns in source order, paired with whether the
pattern *string* contains the letter `k` (the test `k in pattern` of the
source). Note the flag is true even for the last pattern, which has no
literal `k` to consume but whose string contains the letter inside its
`bhk` lookahead, so the source appends `000` to its capture as well. -/
def rentPatterns : List (RE × Bool) :=
  [(rcat [kw ["rent", "rental"], plus1 colSp, .grp dcPlus, chr 'k'], true),
   (rcat [kw ["rent", "rental"], plus1 colSp, .grp dc4], false),
   (rcat [lstr "average", dotStar, kw ["rent", "rental"], dotStar, .grp dcPlus, chr 'k'], true),
   (rcat [lstr "average", dotStar, kw ["rent", "rental"], dotStar, .grp dc4], false),
   (rcat [.grp dcPlus, chr 'k', sStar, kw ["rent", "rental"]], true),
   (rcat [.grp dc4, sStar, kw ["rent", "rental"]], false),
   (rcat [.grp dcPlus, chr 'k', .nla (rcat [sStar, lstr "bhk"])], true),
   (rcat [.grp dc4, .nla (rcat [sStar, lstr "bhk"])], true)]

/-- The candidate rent value of one pattern: strip commas from the captured
group, parse, and append `000` when the pattern had a `k` or the match is
followed by a `k` in the query. -/
def rentCand (ql : Str) (p : RE × Bool) : Option Nat :=
  match reFind p.1 ql with
  | none => none
  | some (cap, e) =>
    let ds := cap.filter (fun c => c != ',')
    if ds.isEmpty then none
    else
      let v := natOfDigits ds
      some (if p.2 || (decide (e < ql.length) && (ql.getD e ' ' == 'k')) then v * 1000 else v)

/-- `extract_rent`: first candidate, in pattern order, passing the
5 000–500 000 plausibility filter. -/
def extract_rent (q : Str) : Option Nat :=
  ((rentPatterns.filterMap (rentCand (pyLower q))).find?
    (fun v => 5000 ≤ v && v ≤ 500000))

/-- `(\d+\.?\d*)` -/
def numG : RE := .grp (rcat [dPlus, ropt (chr '.'), .star true dC])

def inflationPats : List RE :=
  [rcat [numG, ropt (chr '%'), sStar, lstr "inflation", .bndry],
   rcat [.bndry, lstr "inflation", .bndry, dotStarL, numG, ropt (chr '%')]]

def interestPats : List RE :=
  [rcat [numG, ropt (chr '%'), sStar, lstr "interest", sPlus, lstr "rate", .bndry],
   rcat [.bndry, lstr "interest", sPlus, lstr "rate", .bndry, dotStarL, numG, ropt (chr '%')],
   rcat [numG, ropt (chr '%'), sStar, lstr "interest", .bndry, .nla (rcat [sStar, lstr "rate"])],
   rcat [.bndry, lstr "interest", .bndry, .nla (rcat [sStar, lstr "rate"]), dotStarL,
     numG, ropt (chr '%')]]

def employmentPats : List RE :=
  [rcat [numG, ropt (chr '%'), sStar, lstr "employment", .bndry],
   rcat [.bndry, lstr "employment", .bndry, dotStarL, numG, ropt (chr '%')]]

/-- Parse the decimal literal matched by `(\d+\.?\d*)`. -/
def parseDec (l : Str) : Option ℚ :=
  let ip := l.takeWhile isDigitC
  let rest := l.drop ip.length
  if ip.isEmpty then none
  else
    match rest with
    | [] => some ((natOfDigits ip : ℚ))
    | c :: fp =>
      if c == '.' then
        some ((natOfDigits ip : ℚ) + (natOfDigits fp : ℚ) / ((10 : ℚ) ^ fp.length))
      else none

/-- One economic factor: first pattern whose parsed value passes its range
filter (parse failures and out-of-range values fall through to the next
pattern, as in the `continue` of the source). -/
def factorVal (pats : List RE) (lo hi : ℚ) (ql : Str) : Option ℚ :=
  (pats.filterMap (fun p => (reFind p ql).bind (fun m => parseDec m.1))).find?
    (fun v => decide (lo ≤ v) && decide (v ≤ hi))

/-- The sparse economic-factor map: each field present only when extracted. -/
structure EF where
  inflation_rate : Option ℚ := none
  interest_rate : Option ℚ := none
  employment_rate : Option ℚ := none
  deriving DecidableEq, Repr

/-- The sparse factor map assembled by `extract_economic_factors`. -/
def efOf (q : Str) : EF :=
  { inflation_rate := factorVal inflationPats 0 20 (pyLower q),
    interest_rate := factorVal interestPats 0 20 (pyLower q),
    employment_rate := factorVal employmentPats 50 100 (pyLower q) }

/-- `extract_economic_factors`: three independent keyword-anchored
extractions; `none` when no factor was found (the empty dict is falsy). -/
def extract_economic_factors (q : Str) : Option EF :=
  if efOf q = {} then none else some (efOf q)

/-! ## Intent classifier (`detect_intent`) -/

def anyMatch (ps : List RE) (ql : Str) : Bool := ps.any (fun r => reSearch r ql)

def qlow (q : Str) : Str := pyStrip (pyLower q)

/-- One step of the general-pattern-stage loop: a matching intent scores
0.8 (0.6 for `help`) and replaces the best candidate only on a strictly
higher score. -/
def genStep (ql : Str) (acc : String × ℚ) (e : String × List RE) : String × ℚ :=
  if anyMatch e.2 ql then
    let score : ℚ := if e.1 = "help" then 0.6 else 0.8
    if acc.2 < score then (e.1, score) else acc
  else acc

/-- The general pattern stage (the final `for intent, patterns in
self.intent_patterns.items()` loop of `detect_intent`). -/
def generalStage (ql : Str) : String × ℚ :=
  intentCatalog.foldl (genStep ql) ("unknown", 0)

/-- The follow-up stage: first follow-up intent, in dict order, with a
matching continuation pattern. -/
def followUpIntent (ql : Str) : Option String :=
  (followUpCatalog.find? (fun e => anyMatch e.2 ql)).map (·.1)

/-- Python truthiness of an optional string (`None` and `""` are falsy). -/
def optFalsy : Option Str → Bool
  | none => true
  | some s => s.isEmpty

def optFalsyS : Option String → Bool
  | none => true
  | some s => s.isEmpty

/-- `detect_intent`, as the ordered cascade of lines 241–348 of the source:
priority overrides, then follow-up patterns (only with conversational
context), then the general pattern stage. -/
def detectIntent (lastIntent : Option String) (lastCity : Option Str) (q : Str) :
    String × ℚ :=
  let ql := qlow q
  if has_bhk ql || has_rent ql then ("gap_analysis", 0.95)
  else if hasSub (s2l "quality") ql && hasSub (s2l "adjusted") ql then
    ("tenant_quality", 0.98)
  else if reSearch p16aRE ql || reSearch p16bRE ql || reSearch p16cRE ql then
    ("tenant_quality", 0.98)
  else if reSearch pTop1RE ql then ("top_city", 0.95)
  else if reSearch pBot1RE ql then ("bottom_city", 0.95)
  else if reSearch pBotARE ql then ("bottom_city", 0.95)
  else if reSearch pBotBRE ql then ("bottom_city", 0.95)
  else if reSearch pTopARE ql then ("top_city", 0.95)
  else if reSearch pTopBRE ql then ("top_city", 0.95)
  else if reSearch pMultiRE ql then
    (if reSearch pWlbRE ql then ("bottom_cities", 0.95) else ("top_cities", 0.95))
  else if hasSub (s2l "gap") ql && hasSub (s2l "analys") ql then ("gap_analysis", 0.95)
  else if hasSub (s2l "low") ql && hasSub (s2l "demand") ql && anyMatch lowDemandPats ql then
    ("low_demand", 0.95)
  else if (hasSub (s2l "oversuppl") ql || (hasSub (s2l "low") ql && hasSub (s2l "gap") ql))
      && anyMatch lowGapPats ql then
    ("low_gap", 0.95)
  else if hasSub (s2l "oversuppl") ql && anyMatch lowGapPats ql then ("low_gap", 0.9)
  else if hasSub (s2l "undersuppl") ql && anyMatch gapPats ql then ("gap_analysis", 0.9)
  else if !optFalsyS lastIntent && !optFalsy lastCity then
    match followUpIntent ql with
    | some i => (i, 0.9)
    | none => generalStage ql
  else generalStage ql

end DatathonChat

namespace DatathonChat

/-! ## Number formatting helpers

`fmtCommaInt` models the Python comma-separated integer format, `fmtFix`
models the fixed-point float formats with N decimals and optional forced
sign (rounding half away from zero where CPython rounds half to
even — no behaviour proved here depends on the digit strings), and
`pyFloatStr` models `str()` of a float with an exact decimal expansion.
-/

def natStr (n : Nat) : Str := Nat.toDigits 10 n

def commaRev : Str → Str
  | a :: b :: c :: d :: t => a :: b :: c :: ',' :: commaRev (d :: t)
  | r => r

def fmtCommaNat (n : Nat) : Str := (commaRev (natStr n).reverse).reverse

def fmtCommaInt (i : Int) : Str :=
  if i < 0 then '-' :: fmtCommaNat i.natAbs else fmtCommaNat i.natAbs

def padLeftZeros (k : Nat) (s : Str) : Str := List.replicate (k - s.length) '0' ++ s

def fmtFix (plus : Bool) (nd : Nat) (q : ℚ) : Str :=
  let sign := if q < 0 then s2l "-" else if plus then s2l "+" else []
  let n : Nat := (Int.floor (|q| * (10 : ℚ) ^ nd + 1 / 2)).toNat
  let ip := n / 10 ^ nd
  let fp := n % 10 ^ nd
  if nd = 0 then sign ++ natStr ip
  else sign ++ natStr ip ++ s2l "." ++ padLeftZeros nd (natStr fp)

def pyFloatStr (q : ℚ) : Str :=
  let sign := if q < 0 then s2l "-" else []
  let a := |q|
  if a.den = 1 then sign ++ natStr a.num.toNat ++ s2l ".0"
  else
    let k := ((((List.range 12).map (· + 1)).find?
      (fun k => (a * (10 : ℚ) ^ k).den = 1)).getD 12)
    let scaled := (a * (10 : ℚ) ^ k).num.toNat
    sign ++ natStr (scaled / 10 ^ k) ++ s2l "." ++ padLeftZeros k (natStr (scaled % 10 ^ k))

/-- Python `int()` on a nonnegative rational (truncation toward zero). -/
def truncQ (q : ℚ) : Int := Int.tdiv q.num (q.den : Int)

/-- Python `x or default` over an optional string (both `None` and `""`
are falsy). -/
def pyOrStr (o : Option Str) (d : Str) : Str :=
  match o with
  | some s => if s.isEmpty then d else s
  | none => d

/-! ## Data model: API payloads and replies

An `ApiResult` is the structured JSON map a collaborator returns (or that
`get_city_rankings` builds); every field the engine ever reads is an
optional field here, so an arbitrary well-formed-or-error reply is any
value of this type.  JSON integers are `Int`, JSON numbers that take part
in fractional arithmetic are `ℚ`.
-/

structure Loc where
  locality : Option Str := none
  gap : Option ℚ := none
  demand : Option Int := none
  deriving DecidableEq, Repr

structure HistItem where
  month : Option Str := none
  demand : Option Int := none
  year : Option Nat := none
  deriving DecidableEq, Repr

structure CityRank where
  city : Option Str := none
  demand : Option Int := none
  monthly_demand : Option Int := none
  total_demand : Option Int := none
  data_source : Option String := none
  deriving DecidableEq, Repr

structure TQA where
  high_quality_pct : Option ℚ := none
  medium_quality_pct : Option ℚ := none
  high_risk_pct : Option ℚ := none
  average_default_risk : Option ℚ := none
  deriving DecidableEq, Repr

structure InvRec where
  rating : Option String := none
  confidence : Option ℚ := none
  quality_score : Option ℚ := none
  reasoning : Option Str := none
  deriving DecidableEq, Repr

structure BaseDemand where
  predicted_demand : Option ℚ := none
  deriving DecidableEq, Repr

structure ApiResult where
  error : Option Str := none
  city : Option Str := none
  predicted_demand : Option Int := none
  confidence : Option String := none
  month : Option Nat := none
  year : Option Nat := none
  /-- the `_extracted_economic_factors` key `chat` injects before rendering -/
  extracted_economic_factors : Option EF := none
  economic_factors_used : Option EF := none
  locality_data : Option (List Loc) := none
  area_locality : Option Str := none
  predicted_gap_ratio : Option ℚ := none
  gap_severity : Option String := none
  demand_supply_status : Option String := none
  historical_data : Option (List HistItem) := none
  base_demand : Option BaseDemand := none
  tenant_quality_analysis : Option TQA := none
  investment_recommendation : Option InvRec := none
  quality_adjusted_demand : Option ℚ := none
  /-- the key `cities` as the list of ranking records built by `get_city_rankings` -/
  cities : Option (List CityRank) := none
  /-- the key `cities` as the plain string list of the `/cities` endpoint -/
  cities_names : Option (List Str) := none
  period : Option Str := none
  is_top : Option Bool := none
  data_source : Option String := none
  deriving DecidableEq, Repr

structure EFFull where
  inflation_rate : ℚ
  interest_rate : ℚ
  employment_rate : ℚ
  deriving DecidableEq, Repr

/-- Body of the `POST /predict` (and `/predict/enhanced`, which additionally
carries a constant `include_tenant_quality: true` flag) request. -/
structure DemandReq where
  city : Str
  date : Str
  economic_factors : EFFull
  deriving DecidableEq, Repr

structure GapEcon where
  inflation_rate : ℚ
  interest_rate : ℚ
  employment_rate : ℚ
  covid_impact_score : ℚ
  economic_health_score : ℚ
  deriving DecidableEq, Repr

/-- Body of the single-locality gap-service `POST /predict` request. -/
structure GapReq where
  city : Str
  area_locality : Str
  bhk : Str
  avg_rent : Nat
  economic_indicators : GapEcon
  deriving DecidableEq, Repr

/-- One observable outgoing HTTP request of a turn. -/
inductive ApiCall where
  | demandPredict : DemandReq → ApiCall
  | demandEnhanced : DemandReq → ApiCall
  | histGet : Str → Nat → ApiCall
  | gapList : Str → Nat → String → ApiCall
  | gapPredict : GapReq → ApiCall
  | citiesGet : ApiCall
  deriving DecidableEq, Repr

def ApiCall.isGapPredict : ApiCall → Bool
  | .gapPredict _ => true
  | _ => false

/-- The external collaborators; `none` models an unreachable endpoint or a
non-2xx status, which the call sites convert to an `{"error": ...}`
payload.  `pick` resolves `random.choice` in the thank-you canned reply. -/
structure Oracle where
  demandReply : DemandReq → Option ApiResult
  enhancedReply : DemandReq → Option ApiResult
  histReply : Str → Nat → Option ApiResult
  gapListReply : Str → Nat → String → Option ApiResult
  gapPredictReply : GapReq → Option ApiResult
  citiesReply : Option ApiResult
  pick : Nat

/-- Read-only per-process context: the bootstrapped city list and the
current (year, month) of `datetime.now()`. -/
structure Ctx where
  cities : List Str
  now : Nat × Nat

/-- The dialogue state fields of `RentalPropertyChatbot`. -/
structure St where
  last_city : Option Str := none
  last_intent : Option String := none
  last_trend : Option ℚ := none
  conversation_history : List Str := []
  user_name : Option Str := none
  deriving DecidableEq, Repr

/-! ## Collaborator call sites (`call_*_api`, `get_city_rankings`) -/

def pad2 (n : Nat) : Str := if n < 10 then '0' :: natStr n else natStr n

/-- `f"{year}-{month:02d}-15"` -/
def dateStr (year month : Nat) : Str :=
  natStr year ++ s2l "-" ++ pad2 month ++ s2l "-15"

/-- Defaults merged in at the dispatch boundary of the demand APIs:
`economic_factors.get(inflation_rate, 6.5)` etc. -/
def mergeDefaults (ef : Option EF) : EFFull :=
  let e := ef.getD {}
  { inflation_rate := e.inflation_rate.getD 6.5,
    interest_rate := e.interest_rate.getD 7.0,
    employment_rate := e.employment_rate.getD 85.0 }

def demandReq (city : Str) (year month : Nat) (ef : Option EF) : DemandReq :=
  { city := city, date := dateStr year month, economic_factors := mergeDefaults ef }

def call_demand_api (orc : Oracle) (city : Str) (year month : Nat) (ef : Option EF) :
    ApiResult × List ApiCall :=
  let req := demandReq city year month ef
  ((orc.demandReply req).getD { error := some (s2l "API request failed") },
   [.demandPredict req])

def call_enhanced_demand_api (orc : Oracle) (city : Str) (year month : Nat)
    (ef : Option EF) : ApiResult × List ApiCall :=
  let req := demandReq city year month ef
  ((orc.enhancedReply req).getD { error := some (s2l "Enhanced API request failed") },
   [.demandEnhanced req])

/-- The constant `economic_indicators` body of the single-locality branch
of `call_gap_api` (the source hard-codes these, with inflation 6.0). -/
def gapEconConst : GapEcon :=
  { inflation_rate := 6.0, interest_rate := 7.0, employment_rate := 85.0,
    covid_impact_score := 0.1, economic_health_score := 0.85 }

def gapPredictReq (city locality bhk : Str) (rent : Nat) : GapReq :=
  { city := city, area_locality := locality, bhk := bhk, avg_rent := rent,
    economic_indicators := gapEconConst }

def call_gap_api (orc : Oracle) (city : Str) (locality : Option Str) (bhk : Str)
    (rent : Nat) (sortBy : String) : ApiResult × List ApiCall :=
  match locality with
  | none =>
    ((orc.gapListReply city 50 sortBy).getD { error := some (s2l "API request failed") },
     [.gapList city 50 sortBy])
  | some loc =>
    let req := gapPredictReq city loc bhk rent
    ((orc.gapPredictReply req).getD { error := some (s2l "API request failed") },
     [.gapPredict req])

def call_historical_api (orc : Oracle) (city : Str) (months : Nat) :
    ApiResult × List ApiCall :=
  ((orc.histReply city months).getD { error := some (s2l "API request failed") },
   [.histGet city months])

/-- Stable insertion sort (ties keep their original order), the behaviour
of Python `sorted`/`list.sort`. -/
def insStable (le : α → α → Bool) (x : α) : List α → List α
  | [] => [x]
  | y :: ys => if le x y then x :: y :: ys else y :: insStable le x ys

def sortStable (le : α → α → Bool) : List α → List α
  | [] => []
  | x :: xs => insStable le x (sortStable le xs)

/-- The ranking record of one city in `get_city_rankings`; `none` when the city
is skipped (failed request, empty history, or a missing `demand` key
raising inside the per-city `try`). -/
def cityRankRecord (orc : Oracle) (c : Str) : Option CityRank :=
  match orc.histReply c 4 with
  | none => none
  | some r =>
    let hist := r.historical_data.getD []
    if hist.isEmpty then none
    else
      match hist.mapM (·.demand) with
      | none => none
      | some ds =>
        let total : Int := ds.sum
        let avgM : ℚ := (total : ℚ) / (hist.length : ℚ)
        let avgD : ℚ := avgM / 30
        some { city := some c, demand := some (truncQ avgD),
               monthly_demand := some (truncQ avgM), total_demand := some total,
               data_source := some "historical" }

def get_city_rankings (orc : Oracle) (top : Bool) (count : Nat) :
    ApiResult × List ApiCall :=
  match orc.citiesReply with
  | none => ({ error := some (s2l "Failed to fetch cities") }, [.citiesGet])
  | some rep =>
    let cs := rep.cities_names.getD []
    let recs := cs.filterMap (cityRankRecord orc)
    let key : CityRank → Int := fun r => r.demand.getD 0
    let sorted :=
      if top then sortStable (fun a b => decide (key b ≤ key a)) recs
      else sortStable (fun a b => decide (key a ≤ key b)) recs
    ({ cities := some (sorted.take count), is_top := some top,
       data_source := some "historical", period := some (s2l "Apr-Jul 2022") },
     .citiesGet :: cs.map (fun c => .histGet c 4))

end DatathonChat
namespace DatathonChat

/-! ## Response generator (`generate_response` and the canned texts)

A branch returning `none` models that branch raising an uncaught Python
exception (`IndexError`/`KeyError`/`ZeroDivisionError`).
-/

def enum1 (l : List α) : List (Nat × α) := ((List.range l.length).map (· + 1)).zip l

/-- `f"{locality} ({demand:,} listings, gap: {gap:+.2f})"` -/
def locDesc (loc : Loc) : Str :=
  loc.locality.getD (s2l "Unknown") ++ s2l " (" ++ fmtCommaInt (loc.demand.getD 0) ++
    s2l " listings, gap: " ++ fmtFix true 2 (loc.gap.getD 0) ++ s2l ")"

/-- `f"{i}. **{locality}**: {demand:,} listings, Gap: {gap:+.2f}\n"` -/
def gapListRow (p : Nat × Loc) : Str :=
  natStr p.1 ++ s2l ". **" ++ p.2.locality.getD (s2l "Unknown") ++ s2l "**: " ++
    fmtCommaInt (p.2.demand.getD 0) ++ s2l " listings, Gap: " ++
    fmtFix true 2 (p.2.gap.getD 0) ++ s2l "\n"

def truthyN : Option Nat → Bool
  | some n => n != 0
  | none => false

/-- `demand_forecast` branch; reads `last_city`/`last_trend` for the error
fallback and the trend cross-reference. -/
def demandBranch (lc : Option Str) (lt : Option ℚ) (d : ApiResult) : Str :=
  if d.error.isSome then
    s2l "I apologize, but I\x27m currently unable to connect to the demand forecasting service. This typically indicates that the API server needs to be started. Based on historical patterns, " ++
      pyOrStr lc (s2l "most major cities") ++
      s2l " generally experience strong rental demand. Please try again in a moment, or feel free to ask me about other market insights."
  else
    let city := d.city.getD (s2l "the city")
    let demand := d.predicted_demand.getD 0
    let confidence := d.confidence.getD "medium"
    let monthly := demand * 30
    let r2 :=
      match d.extracted_economic_factors with
      | some e =>
        let fm : List Str :=
          (match e.inflation_rate with
           | some v => [s2l "**" ++ pyFloatStr v ++ s2l "% inflation**"]
           | none => []) ++
          (match e.interest_rate with
           | some v => [s2l "**" ++ pyFloatStr v ++ s2l "% interest rate**"]
           | none => []) ++
          (match e.employment_rate with
           | some v => [s2l "**" ++ pyFloatStr v ++ s2l "% employment**"]
           | none => [])
        match fm.getLast? with
        | some lastF =>
          s2l "with " ++ joinSep (s2l ", ") fm.dropLast ++
            (if fm.length > 1 then s2l " and " else []) ++ lastF ++ s2l ", "
        | none => []
      | none => s2l "of historical patterns and economic indicators, "
    let r3 :=
      if truthyN d.month && truthyN d.year then
        match monthsTable.find? (fun e => e.2 == d.month.getD 0) with
        | some e =>
          s2l "the rental demand in **" ++ city ++ s2l "** for **" ++
            pyCapitalize e.1 ++ s2l " " ++ natStr (d.year.getD 0) ++ s2l "** "
        | none => s2l "the rental demand in **" ++ city ++ s2l "** "
      else s2l "the rental demand in **" ++ city ++ s2l "** "
    let r4 := s2l "is approximately **" ++ fmtCommaInt demand ++
      s2l " properties per day**, which translates to about **" ++ fmtCommaInt monthly ++
      s2l " properties per month**. "
    let r5 :=
      match lt with
      | some t =>
        if lc == some city then
          if t < -20 then
            if monthly > 50000 then
              s2l "This forecast suggests a **recovery** from the recent " ++
                fmtFix false 1 |t| ++
                s2l "% decline, likely driven by improved economic conditions or seasonal factors. "
            else
              s2l "Note: Recent historical data showed a " ++ fmtFix false 1 |t| ++
                s2l "% decline. This forecast reflects continuation of that trend. "
          else if t > 20 then
            s2l "This aligns with the recent growth trend of +" ++ fmtFix false 1 t ++ s2l "%. "
          else []
        else []
      | none => []
    let r6 :=
      if confidence = "high" then s2l "The model has high confidence in this prediction. "
      else s2l "This is an estimate based on available trends. "
    let r7 :=
      if monthly > 50000 then city ++ s2l " shows strong rental market activity." else []
    s2l "Based on my analysis " ++ r2 ++ r3 ++ r4 ++ r5 ++ r6 ++ r7

def efTruthy : Option EF → Bool
  | some e => e != {}
  | none => false

/-- `tenant_quality` branch. -/
def tenantBranch (d : ApiResult) : Str :=
  if d.error.isSome then
    s2l "I apologize, but I couldn\x27t access the enhanced reporting system. " ++
      d.error.getD []
  else
    let city := d.city.getD (s2l "the city")
    let base : ℚ := ((d.base_demand.getD {}).predicted_demand).getD 0
    let tq := d.tenant_quality_analysis.getD {}
    let rec0 := d.investment_recommendation.getD {}
    let qa := d.quality_adjusted_demand.getD 0
    let gradeA := tq.high_quality_pct.getD 0 * 100
    let gradeB := tq.medium_quality_pct.getD 0 * 100
    let gradeD := tq.high_risk_pct.getD 0 * 100
    let riskS := tq.average_default_risk.getD 0 * 100
    let rating : Str :=
      (s2l (rec0.rating.getD "UNKNOWN")).map (fun c => if c == '_' then ' ' else c)
    let conf := rec0.confidence.getD 0 * 100
    let reasoning := rec0.reasoning.getD []
    let extracted :=
      if efTruthy d.economic_factors_used then d.economic_factors_used
      else d.extracted_economic_factors
    let warn :=
      match extracted with
      | some e =>
        let fs : List Str :=
          (match e.inflation_rate with
           | some v => [s2l "Inflation: " ++ pyFloatStr v ++ s2l "%"]
           | none => []) ++
          (match e.interest_rate with
           | some v => [s2l "Interest: " ++ pyFloatStr v ++ s2l "%"]
           | none => [])
        if fs.isEmpty then []
        else s2l "⚠️ *Scenario: High Economic Stress (" ++ joinSep (s2l ", ") fs ++
          s2l ")*\n\n"
      | none => []
    let recm :=
      if rating = s2l "STRONG BUY" then
        s2l "Highly recommended. The majority of tenants (" ++ fmtFix false 0 (gradeA + gradeB) ++
          s2l "%) are financially stable, ensuring consistent rental income."
      else if rating = s2l "BUY" then
        s2l "Good investment. Tenant quality is solid, but perform standard thorough checks."
      else if rating = s2l "HOLD" then
        s2l "Proceed with caution. A significant portion of demand comes from high-risk tenants."
      else s2l "High risk market. Tenant default probability is elevated."
    s2l "**📊 Analysis for " ++ city ++ s2l ": Tenant Quality & Investment Risk**\n\n" ++
      warn ++
      s2l "Based on our enhanced analysis of tenant financial profiles:\n\n" ++
      s2l "**🏆 Investment Rating: " ++ rating ++ s2l "** (" ++ fmtFix false 0 conf ++
      s2l "% Confidence)\n" ++ s2l "*" ++ reasoning ++ s2l "*\n\n" ++
      s2l "**👥 Tenant Quality Breakdown:**\n" ++
      s2l "- **Grade A (Premium):** " ++ fmtFix false 1 gradeA ++
      s2l "% - Excellent financial health\n" ++
      s2l "- **Grade B (Reliable):** " ++ fmtFix false 1 gradeB ++ s2l "% - Steady payers\n" ++
      s2l "- **Grade D (Risky):** " ++ fmtFix false 1 gradeD ++ s2l "% - High churn risk\n\n" ++
      s2l "**📉 Risk Assessment:**\n" ++
      s2l "- Average Default Risk: **" ++ fmtFix false 1 riskS ++ s2l "%**\n" ++
      s2l "- Quality-Adjusted Demand: **" ++ fmtFix false 0 qa ++ s2l "** (vs " ++
      fmtFix false 0 base ++ s2l " total)\n\n" ++
      s2l "**💡 Recommendation:**\n" ++ recm

/-- `gap_analysis` branch (list and single-locality forms). -/
def gapBranch (d : ApiResult) : Str :=
  if d.error.isSome then
    s2l "I apologize, but I\x27m currently unable to access the gap analysis service. This could indicate that the API needs to be restarted. In the meantime, I\x27d be happy to help you with demand forecasting or historical trend analysis."
  else
    match d.locality_data with
    | some l =>
      let city := d.city.getD (s2l "the city")
      let gaps := l.map (fun loc => loc.gap.getD 0)
      let avg : ℚ := if gaps.isEmpty then 0 else gaps.sum / (gaps.length : ℚ)
      let severity :=
        if |avg| > 0.3 then s2l "high" else if |avg| > 0.1 then s2l "medium" else s2l "low"
      let rows := (enum1 (l.take 5)).foldl (fun a p => a ++ gapListRow p) []
      let interp :=
        if avg > 0.1 then
          s2l "\n\nThese areas show strong demand exceeding supply. Properties typically rent quickly with lower vacancy rates. Excellent investment opportunities."
        else if avg < -0.1 then
          s2l "\n\nThese areas show supply exceeding demand. Higher vacancy rates and competitive pricing are typical. Favorable for renters."
        else
          s2l "\n\nThe market shows balanced supply-demand conditions with moderate competition."
      s2l "Based on gap analysis for **" ++ city ++
        s2l "**, here are the **top undersupplied areas** (best for investment):\n\n" ++ rows ++
        s2l "\n**Market Summary**: Average gap ratio of " ++ fmtFix true 3 avg ++
        s2l " (" ++ severity ++ s2l " severity)" ++ interp
    | none =>
      let city := d.city.getD (s2l "the city")
      let locality := d.area_locality.getD (s2l "the area")
      let gr := d.predicted_gap_ratio.getD 0
      let sev := d.gap_severity.getD "unknown"
      let status := d.demand_supply_status.getD "unknown"
      s2l "Analysis for " ++ locality ++ s2l " in " ++ city ++ s2l ": Gap ratio of " ++
        fmtFix false 3 gr ++ s2l " (" ++ s2l sev ++ s2l " severity). " ++
        (if status = "demand_exceeds_supply" then
          s2l "Market status: Demand exceeds supply (undersupplied). Properties typically rent quickly with lower vacancy rates."
        else
          s2l "Market status: Supply exceeds demand (oversupplied). Higher competition among landlords with increased vacancy risk.")

/-- `low_demand` branch.  When the sorted locality list is empty the
fallback f-string of the source evaluates `area_descriptions[-1]`, raising
`IndexError` — modelled by `none`. -/
def lowDemandBranch (d : ApiResult) : Option Str :=
  if d.error.isSome then
    some (s2l "Hmm, I\x27m having trouble accessing the demand data right now. 🤔\n\nBut I can help you find low-demand areas once the API is back up!\n")
  else
    match d.locality_data with
    | some l =>
      let city := d.city.getD (s2l "the city")
      let sorted :=
        (sortStable (fun a b => decide ((a.demand.getD 999999) ≤ (b.demand.getD 999999))) l).take 5
      let hasLow := sorted.any (fun loc => decide ((loc.gap.getD 1) < 0))
      let descs := sorted.map locDesc
      match descs.getLast? with
      | none => none
      | some lastD =>
        if hasLow then
          some (s2l "Lowest demand areas in " ++ city ++ s2l ": " ++
            joinSep (s2l ", ") descs.dropLast ++ s2l ", and " ++ lastD ++
            s2l ". Negative gap values indicate supply exceeds demand. Investors should be aware that these areas may experience lower rental yields and higher vacancy risk.")
        else
          some (s2l "All areas in " ++ city ++
            s2l " show high demand. Areas with relatively lower competition include " ++
            joinSep (s2l ", ") descs.dropLast ++ s2l ", and " ++ lastD ++
            s2l ". The market remains competitive overall.")
    | none =>
      some (s2l "I need more data to show you low-demand areas. Try asking about a specific city!")

/-- `low_gap` branch with its explicit 0/1/N fallback trichotomy. -/
def lowGapBranch (d : ApiResult) : Option Str :=
  if d.error.isSome then
    some (s2l "Hmm, I\x27m having trouble accessing the gap analysis data right now. 🤔\n\nBut I can help you find oversupplied areas once the API is back up!\n")
  else
    match d.locality_data with
    | some l =>
      let city := d.city.getD (s2l "the city")
      let top5 := l.take 5
      let hasOver := top5.any (fun loc => decide ((loc.gap.getD 1) < 0))
      let descs := top5.map locDesc
      if hasOver then
        match descs.getLast? with
        | none => none
        | some lastD =>
          some (s2l "Highest oversupply areas in " ++ city ++ s2l ": " ++
            joinSep (s2l ", ") descs.dropLast ++ s2l ", and " ++ lastD ++
            s2l ". Negative gap values indicate supply exceeds demand. While this benefits renters, investors should be cautious of higher vacancy risks and potentially lower returns in these locations.")
      else
        match descs with
        | [] =>
          some (s2l "No oversupplied areas found in " ++ city ++
            s2l ". The market appears to be undersupplied overall.")
        | [d0] =>
          some (s2l "No oversupplied areas found in " ++ city ++ s2l ". " ++
            s2l "Least undersupplied area: " ++ d0 ++
            s2l ". Market remains undersupplied overall.")
        | d0 :: d1 :: rest =>
          let ds := d0 :: d1 :: rest
          some (s2l "No oversupplied areas found in " ++ city ++ s2l ". " ++
            s2l "Least undersupplied areas: " ++ joinSep (s2l ", ") ds.dropLast ++
            s2l ", and " ++ (ds.getLast?).getD [] ++
            s2l ". Market remains undersupplied overall.")
    | none =>
      some (s2l "I need more data to show you oversupplied areas. Try asking about a specific city!")

/-- `historical` branch: returns the rendered text (or `none` on a
`KeyError`/`ZeroDivisionError` in the trend computation) and the new
`last_trend` value — the one dialogue-state field this branch stores. -/
def histBranch (lt : Option ℚ) (d : ApiResult) : Option Str × Option ℚ :=
  if d.error.isSome then
    (some (s2l "Sorry, I couldn\x27t get historical data. Error: " ++ d.error.getD []), lt)
  else
    let city := d.city.getD (s2l "the city")
    let hist := d.historical_data.getD []
    if hist.isEmpty then
      (some (s2l "No historical data available for " ++ city ++ s2l "."), lt)
    else
      let displayed := hist.drop (hist.length - 6)
      let rows := displayed.foldl
        (fun a item => a ++ s2l "- **" ++ item.month.getD [] ++ s2l " " ++
          ((item.year.map natStr).getD []) ++ s2l "**: " ++
          fmtCommaInt (item.demand.getD 0) ++ s2l " listings\n") []
      let resp := s2l "Historical rental demand in " ++ city ++ s2l ":\n\n" ++ rows
      if displayed.length ≥ 2 then
        match displayed.head?.bind (·.demand), displayed.getLast?.bind (·.demand) with
        | some firstD, some lastD =>
          let corrected : Option Int :=
            if displayed.length ≥ 3 then
              match ((displayed.drop (displayed.length - 2)).head?).bind (·.demand) with
              | some secondLast =>
                if (lastD : ℚ) < (secondLast : ℚ) * 0.5 then some secondLast else some lastD
              | none => none
            else some lastD
          match corrected with
          | none => (none, lt)
          | some lastV =>
            if firstD = 0 then (none, lt)
            else
              (some resp, some ((((lastV : ℚ) - (firstD : ℚ)) / (firstD : ℚ)) * 100))
        | _, _ => (none, lt)
      else (some resp, lt)

/-- `f"{i}. **{city}**: {demand:,} properties/day (~{monthly:,}/month)\n"`;
`none` when a raw key access (`city_data[city]` …) would raise. -/
def cityRow (p : Nat × CityRank) : Option Str := do
  let c ← p.2.city
  let dm ← p.2.demand
  let mo ← p.2.monthly_demand
  pure (natStr p.1 ++ s2l ". **" ++ c ++ s2l "**: " ++ fmtCommaInt dm ++
    s2l " properties/day (~" ++ fmtCommaInt mo ++ s2l "/month)\n")

def topCitiesBranch (d : ApiResult) : Option Str :=
  if d.error.isSome then
    some (s2l "I apologize, but I couldn\x27t fetch the city rankings at this moment. Please try again.")
  else
    let cities := d.cities.getD []
    if cities.isEmpty then
      some (s2l "I couldn\x27t retrieve city data at this moment.")
    else
      let period := d.period.getD (s2l "historical period")
      match (enum1 cities).mapM cityRow with
      | none => none
      | some rows =>
        some (s2l "Based on analysis of **10 million actual rental transactions** (" ++
          period ++ s2l "), here are the **top 5 cities** with the highest rental demand:\n\n" ++
          rows.foldl (· ++ ·) [] ++
          s2l "\n**Data Source**: Real historical data from 10M transactions (" ++ period ++
          s2l "). These cities consistently show the strongest rental market activity.")

def bottomCitiesBranch (d : ApiResult) : Option Str :=
  if d.error.isSome then
    some (s2l "I apologize, but I couldn\x27t fetch the city rankings at this moment. Please try again.")
  else
    let cities := d.cities.getD []
    if cities.isEmpty then
      some (s2l "I couldn\x27t retrieve city data at this moment.")
    else
      let period := d.period.getD (s2l "historical period")
      match (enum1 cities).mapM cityRow with
      | none => none
      | some rows =>
        some (s2l "Based on analysis of **10 million actual rental transactions** (" ++
          period ++ s2l "), here are the **bottom 5 cities** with the lowest rental demand:\n\n" ++
          rows.foldl (· ++ ·) [] ++
          s2l "\nThese cities show lower market activity. Investors should exercise caution and conduct thorough due diligence before investing in these markets.")

def topCityBranch (d : ApiResult) : Option Str :=
  if d.error.isSome then
    some (s2l "I apologize, but I couldn\x27t fetch the city rankings at this moment. Please try again.")
  else
    let cities := d.cities.getD []
    if cities.isEmpty then
      some (s2l "I couldn\x27t retrieve city data at this moment.")
    else
      let cd := (cities.head?).getD {}
      match cd.city, cd.demand, cd.monthly_demand with
      | some c, some dm, some mo =>
        let period := d.period.getD (s2l "historical period")
        some (s2l "Based on analysis of **10 million actual rental transactions** (" ++
          period ++ s2l "), the **#1 city** with the highest rental demand is:\n\n🏆 **" ++
          c ++ s2l "**: " ++ fmtCommaInt dm ++ s2l " properties/day (~" ++ fmtCommaInt mo ++
          s2l "/month)\n\n**Data Source**: Real historical data from 10M transactions (" ++
          period ++ s2l "). " ++ c ++
          s2l " consistently shows the strongest rental market activity and represents the best investment opportunity among all analyzed cities.")
      | _, _, _ => none

def bottomCityBranch (d : ApiResult) : Option Str :=
  if d.error.isSome then
    some (s2l "I apologize, but I couldn\x27t fetch the city rankings at this moment. Please try again.")
  else
    let cities := d.cities.getD []
    if cities.isEmpty then
      some (s2l "I couldn\x27t retrieve city data at this moment.")
    else
      let cd := (cities.head?).getD {}
      match cd.city, cd.demand, cd.monthly_demand with
      | some c, some dm, some mo =>
        let period := d.period.getD (s2l "historical period")
        some (s2l "Based on current market analysis, the city with the **lowest rental demand** is:\n\n⚠️ **" ++
          c ++ s2l "**: " ++ fmtCommaInt dm ++ s2l " properties/day (~" ++ fmtCommaInt mo ++
          s2l "/month)\n\n**Data Source**: Real historical data from 10M transactions (" ++
          period ++ s2l "). " ++ c ++
          s2l " shows the weakest market activity among all analyzed cities. Investors should exercise caution and conduct thorough due diligence before considering this market.")
      | _, _, _ => none

def helpText : Str :=
  s2l "\n**Welcome to Rental Property AI Assistant!** 🏠\n\nI can help you with:\n\n**1. Demand Forecasting**\n- \"What\x27s the demand in Mumbai for August 2024?\"\n- \"Predict rental demand in Delhi\"\n- \"How many rentals in Bangalore next month?\"\n\n**2. Investment Opportunities (High Demand)**\n- \"Show me investment opportunities in Mumbai\"\n- \"Which areas in Delhi have high demand?\"\n- \"Where should I invest in Bangalore?\"\n\n**3. Low Demand Areas (For Renters/Buyers)**\n- \"Which areas have low demand in Mumbai?\"\n- \"Show me affordable areas in Delhi\"\n- \"Where is it cheap in Bangalore?\"\n\n**4. Oversupplied Markets (Renter\x27s/Buyer\x27s Market)**\n- \"Which areas are oversupplied in Mumbai?\"\n- \"Show me renter\x27s market in Delhi\"\n- \"Buyer\x27s market in Bangalore\"\n\n**5. Historical Data**\n- \"Show historical demand in Chennai\"\n- \"Past trends in Pune\"\n- \"Historical data for Hyderabad\"\n\n**Supported Cities**: Mumbai, Delhi, Bangalore, Hyderabad, Chennai, Kolkata, Pune, Ahmedabad, Jaipur, Surat, and 30 more!\n\nJust ask me in natural language! 😊\n"

def defaultText : Str :=
  s2l "Hmm, I\x27m not quite sure what you\x27re asking about. 🤔\n\nI specialize in rental property insights! I can help you with:\n\n💡 **Try asking me:**\n- \"What\x27s the demand in Mumbai?\" - for demand forecasting\n- \"Where should I invest in Delhi?\" - for investment opportunities\n- \"Show me Bangalore trends\" - for historical data\n\n**Supported cities**: Mumbai, Delhi, Bangalore, Hyderabad, Chennai, Kolkata, Pune, Ahmedabad, and 30+ more!\n\nCould you rephrase your question? Or type \"help\" for more examples! 😊\n"

def greetingText (userName : Option Str) : Str :=
  (match userName with
   | some n => s2l "Hello " ++ n
   | none => s2l "Hello") ++
  s2l "\n\nI\x27m your AI Property Investment Assistant. I\x27m here to help you make smart rental property decisions.\n\n**I can help you with:**\n- Rental demand forecasting for any city\n- Investment opportunity analysis\n- Historical market trends\n- Best localities for investment\n\n**Just ask me naturally, like:**\n- \"What\x27s the demand in Mumbai?\"\n- \"Where should I invest in Delhi?\"\n- \"Show me Bangalore opportunities\"\n\nWhat would you like to know?\n"

/-- `get_thank_you_response`; `pick` resolves `random.choice`. -/
def thankYouText (pick : Nat) : Str :=
  ([s2l "You\x27re very welcome! 😊 Happy to help you make informed investment decisions. Feel free to ask anything else!",
    s2l "My pleasure! 🏠 I\x27m here whenever you need property insights. What else can I help you with?",
    s2l "Glad I could help! 💡 Don\x27t hesitate to reach out if you have more questions about the rental market."].getD
    (pick % 3) [])

def goodbyeText : Str :=
  s2l "Goodbye! 👋 \n\nBest of luck with your property investments! Remember, I\x27m always here to help you analyze the rental market.\n\nHappy investing! 🏠💰\n"

/-- `generate_response(intent, data, query)`: the per-intent dispatch; the
returned state differs from the input state only through the `historical`
`last_trend` store of the branch. -/
def generateResponse (st : St) (intent : String) (d : ApiResult) (_q : Str) :
    Option Str × St :=
  if intent = "demand_forecast" then (some (demandBranch st.last_city st.last_trend d), st)
  else if intent = "tenant_quality" then (some (tenantBranch d), st)
  else if intent = "gap_analysis" then (some (gapBranch d), st)
  else if intent = "low_demand" then (lowDemandBranch d, st)
  else if intent = "low_gap" then (lowGapBranch d, st)
  else if intent = "historical" then
    let p := histBranch st.last_trend d
    (p.1, { st with last_trend := p.2 })
  else if intent = "top_cities" then (topCitiesBranch d, st)
  else if intent = "bottom_cities" then (bottomCitiesBranch d, st)
  else if intent = "top_city" then (topCityBranch d, st)
  else if intent = "bottom_city" then (bottomCityBranch d, st)
  else if intent = "help" then (some helpText, st)
  else (some defaultText, st)

/-! ## Orchestrator (`chat`) -/

/-- The clarifying prompt returned when a city-scoped intent has no city. -/
def clarifyText (ctx : Ctx) : Str :=
  s2l "I\x27d love to help! 😊 But I need to know which city you\x27re interested in.\n\n**Supported cities include**: " ++
    joinSep (s2l ", ") (ctx.cities.take 8) ++
    s2l ", and 30+ more!\n\n**Try asking:**\n- \"What\x27s the demand in Mumbai?\"\n- \"Show me opportunities in Delhi\"\n- \"Bangalore rental trends\"\n\nWhich city would you like to know about?\n"

/-- The context note appended when the city was back-filled from state. -/
def noteText (c : Str) : Str :=
  s2l "\n\nSince you didn\x27t mention a city, I\x27ll use your last mentioned city: **" ++ c ++
    s2l "**."

/-- Setting the `_extracted_economic_factors` key of a reply: the key
`chat` injects into a demand reply before rendering. -/
def withEF (d : ApiResult) (ef : Option EF) : ApiResult :=
  { d with extracted_economic_factors := ef }

/-- The per-intent collaborator dispatch of `chat` (the `if/elif` chain on the intent after the city check). -/
def chatDispatch (ctx : Ctx) (orc : Oracle) (st2 : St) (context_note : Str)
    (intent : String) (cityS : Str) (q : Str) : Option Str × St × List ApiCall :=
  if intent = "demand_forecast" then
    let ym := extract_date ctx.now q
    let ef := extract_economic_factors q
    if ef.isSome then
      let pe := call_enhanced_demand_api orc cityS ym.1 ym.2 ef
      if pe.1.tenant_quality_analysis.isSome then
        let g := generateResponse st2 "tenant_quality" (withEF pe.1 ef) q
        (g.1.map (· ++ context_note), g.2, pe.2)
      else
        let pd := call_demand_api orc cityS ym.1 ym.2 ef
        let g := generateResponse st2 "demand_forecast" (withEF pd.1 ef) q
        (g.1.map (· ++ context_note), g.2, pe.2 ++ pd.2)
    else
      let pd := call_demand_api orc cityS ym.1 ym.2 ef
      let g := generateResponse st2 "demand_forecast" (withEF pd.1 ef) q
      (g.1.map (· ++ context_note), g.2, pd.2)
  else if intent = "gap_analysis" then
    let bhk := (extract_bhk q).getD (s2l "2")
    let rent := (extract_rent q).getD 30000
    let pg := call_gap_api orc cityS none bhk rent "gap_high"
    let g := generateResponse st2 "gap_analysis" pg.1 q
    (g.1.map (· ++ context_note), g.2, pg.2)
  else if intent = "low_demand" then
    let pg := call_gap_api orc cityS none (s2l "2") 30000 "gap_high"
    let g := generateResponse st2 "low_demand" pg.1 q
    (g.1.map (· ++ context_note), g.2, pg.2)
  else if intent = "low_gap" then
    let _locality := extract_locality ctx.cities q
    let pg := call_gap_api orc cityS none (s2l "2") 30000 "gap_low"
    let g := generateResponse st2 "low_gap" pg.1 q
    (g.1.map (· ++ context_note), g.2, pg.2)
  else if intent = "historical" then
    let ph := call_historical_api orc cityS 12
    let g := generateResponse st2 "historical" ph.1 q
    (g.1.map (· ++ context_note), g.2, ph.2)
  else if intent = "tenant_quality" then
    let ym := extract_date ctx.now q
    let ef := extract_economic_factors q
    let pe := call_enhanced_demand_api orc cityS ym.1 ym.2 ef
    let g := generateResponse st2 "tenant_quality" pe.1 q
    (g.1.map (· ++ context_note), g.2, pe.2)
  else if intent = "top_cities" then
    let pr := get_city_rankings orc true 5
    let g := generateResponse st2 "top_cities" pr.1 q
    (g.1, g.2, pr.2)
  else if intent = "bottom_cities" then
    let pr := get_city_rankings orc false 5
    let g := generateResponse st2 "bottom_cities" pr.1 q
    (g.1, g.2, pr.2)
  else if intent = "top_city" then
    let pr := get_city_rankings orc true 1
    let g := generateResponse st2 "top_city" pr.1 q
    (g.1, g.2, pr.2)
  else if intent = "bottom_city" then
    let pr := get_city_rankings orc false 1
    let g := generateResponse st2 "bottom_city" pr.1 q
    (g.1, g.2, pr.2)
  else (some defaultText, st2, [])

/-- `chat(query)`: one full turn.  Returns the response (`none` = an
uncaught exception propagated to the caller), the final dialogue state,
and the trace of collaborator calls made. -/
def chat (ctx : Ctx) (orc : Oracle) (st0 : St) (q : Str) :
    Option Str × St × List ApiCall :=
  let st := { st0 with conversation_history := st0.conversation_history ++ [q] }
  let intent := (detectIntent st.last_intent st.last_city q).1
  if intent = "greeting" then
    let st1 :=
      match extract_name q with
      | some n => { st with user_name := some n }
      | none => st
    (some (greetingText st1.user_name), st1, [])
  else if intent = "thank_you" then (some (thankYouText orc.pick), st, [])
  else if intent = "goodbye" then (some goodbyeText, st, [])
  else if intent = "help" then (some helpText, st, [])
  else
    let city0 := extract_city ctx.cities q
    let backfill := optFalsy city0 && !optFalsy st.last_city
    let city := if backfill then st.last_city else city0
    let context_note := if backfill then noteText (st.last_city.getD []) else []
    if optFalsy city &&
        !(intent = "top_cities" || intent = "bottom_cities" ||
          intent = "top_city" || intent = "bottom_city") then
      (some (clarifyText ctx), st, [])
    else
      let st2 := { st with last_city := city, last_intent := some intent }
      chatDispatch ctx orc st2 context_note intent (city.getD []) q

end DatathonChat

namespace DatathonChat

/-! ## Definitions used by the claim theorems

`generalFirstMatch`/`generalAmendedSpec` are *specification-side*
definitions (written from the words of the spec, to be compared against the
source-derived `generalStage`); the remaining definitions are concrete
inputs for counterexamples and witnesses.
-/

/-- Spec wording for the general stage: "the first intent, in the pattern
declaration order of the catalog, one of whose patterns matches". -/
def generalFirstMatch (ql : Str) : Option String :=
  (intentCatalog.find? (fun e => anyMatch e.2 ql)).map (·.1)

/-- The amended general-stage contract: the first matching intent wins with
confidence 0.8 (0.6 for `help`), except that a first match of `help` is
overridden by `tenant_quality` (the only intent declared after `help`,
whose 0.8 beats the 0.6 of help) whenever a tenant-quality pattern also
matches; no match at all gives `("unknown", 0)`. -/
def generalAmendedSpec (ql : Str) : String × ℚ :=
  match generalFirstMatch ql with
  | none => ("unknown", 0)
  | some i =>
    if i = "help" then
      if anyMatch tenantQualityPats ql then ("tenant_quality", 0.8) else ("help", 0.6)
    else (i, 0.8)

/-- A bootstrap context with the static fallback city list. -/
def ctx0 : Ctx := { cities := defaultCities, now := (2026, 10) }

/-- An oracle whose gap-list endpoint answers with an *empty*
`locality_data` list and whose other endpoints are unreachable. -/
def orcEmptyGapList : Oracle :=
  { demandReply := fun _ => none, enhancedReply := fun _ => none,
    histReply := fun _ _ => none,
    gapListReply := fun _ _ _ => some { locality_data := some [] },
    gapPredictReply := fun _ => none, citiesReply := none, pick := 0 }

def histApril : HistItem :=
  { month := some (s2l "April"), demand := some 1000, year := some 2022 }

def histMay : HistItem :=
  { month := some (s2l "May"), demand := some 2000, year := some 2022 }

/-- A well-formed two-month historical reply (demand 1000 → 2000). -/
def dHistC4 : ApiResult :=
  { city := some (s2l "Pune"), historical_data := some [histApril, histMay] }

def c8LocA : Loc :=
  { locality := some (s2l "Velachery"), gap := some 0.5, demand := some 120 }

def c8LocB : Loc :=
  { locality := some (s2l "Guindy"), gap := some 0.2, demand := some 80 }

/-- A gap-list reply in which every locality has a strictly positive gap. -/
def c8Data : ApiResult :=
  { city := some (s2l "Chennai"), locality_data := some [c8LocA, c8LocB] }

end DatathonChat
namespace DatathonChat

/-! ## Helper lemmas -/

theorem begins_append (p s : Str) : begins p (p ++ s) = true := by
  induction p with
  | nil => rfl
  | cons c t ih => simp [begins, ih]

theorem begins_mono (p b c : Str) (h : begins p b = true) : begins p (b ++ c) = true := by
  induction p generalizing b with
  | nil => rfl
  | cons x xs ih =>
    cases b with
    | nil => simp [begins] at h
    | cons y ys =>
      simp only [begins, Bool.and_eq_true, beq_iff_eq] at h ⊢
      exact ⟨h.1, ih ys h.2⟩

theorem hasSub_of_begins (p s : Str) (h : begins p s = true) : hasSub p s = true := by
  cases s with
  | nil => simpa [hasSub] using h
  | cons c t => simp [hasSub, h]

theorem hasSub_append_left (p a b : Str) (h : hasSub p b = true) :
    hasSub p (a ++ b) = true := by
  induction a with
  | nil => simpa using h
  | cons c t ih => simp [hasSub, ih]

theorem factorVal_any (pats : List RE) (lo hi : ℚ) (s : Str) (v : ℚ)
    (h : factorVal pats lo hi s = some v) :
    pats.any (fun r => reSearch r s) = true := by
  unfold factorVal at h
  have hmem := List.mem_of_find?_eq_some h
  rcases List.mem_filterMap.mp hmem with ⟨p, hp, hv⟩
  rw [List.any_eq_true]
  refine ⟨p, hp, ?_⟩
  cases hfind : reFind p s with
  | none => rw [hfind] at hv; simp at hv
  | some m => simp [reSearch, hfind]

theorem genStep_miss (ql : Str) (acc : String × ℚ) (e : String × List RE)
    (h : anyMatch e.2 ql = false) : genStep ql acc e = acc := by
  unfold genStep; simp [h]

theorem genStep_keep (ql : Str) (i : String) (e : String × List RE) :
    genStep ql (i, 0.8) e = (i, 0.8) := by
  unfold genStep
  by_cases hm : anyMatch e.2 ql
  · by_cases hh : e.1 = "help" <;> simp [hm, hh] <;> norm_num
  · simp [hm]

theorem foldl_keep (ql : Str) (i : String) (l : List (String × List RE)) :
    l.foldl (genStep ql) (i, 0.8) = (i, 0.8) := by
  induction l with
  | nil => rfl
  | cons e t ih => rw [List.foldl_cons, genStep_keep, ih]

/-! ## C1 -/

/-- C1: any query whose lower-cased form triggers the `has_bhk` or
`has_rent` priority flag is classified `("gap_analysis", 0.95)` by
`detect_intent`, for every dialogue state — this check precedes every
other classification stage. -/
theorem C1_bhk_rent_priority (li : Option String) (lc : Option Str) (q : Str)
    (h : (has_bhk (qlow q) || has_rent (qlow q)) = true) :
    detectIntent li lc q = ("gap_analysis", 0.95) := by
  unfold detectIntent
  simp [h]

theorem C1_bhk_rent_priority_witness :
    (has_bhk (qlow (s2l "2 bhk in Mumbai")) || has_rent (qlow (s2l "2 bhk in Mumbai"))) = true ∧
    detectIntent none none (s2l "2 bhk in Mumbai") = ("gap_analysis", 0.95) :=
  ⟨by decide, C1_bhk_rent_priority none none (s2l "2 bhk in Mumbai") (by decide)⟩

/-! ## C7 -/

/-- C7: the three documented `extract_rent` examples, and the plausibility
range: every extracted rent lies in [5000, 500000]. -/
theorem C7_extract_rent_spec :
    extract_rent (s2l "rent 35000") = some 35000 ∧
    extract_rent (s2l "35k rent") = some 35000 ∧
    extract_rent (s2l "2000 bhk") = none ∧
    ∀ (q : Str) (v : Nat), extract_rent q = some v → 5000 ≤ v ∧ v ≤ 500000 := by
  refine ⟨by decide, by decide, by decide, ?_⟩
  intro q v h
  unfold extract_rent at h
  have hp := List.find?_some h
  simpa using hp

theorem C7_extract_rent_spec_witness : 5000 ≤ 35000 ∧ 35000 ≤ 500000 :=
  C7_extract_rent_spec.2.2.2 (s2l "rent 35000") 35000 (by decide)

/-! ## C9 -/

/-- C9 counterexample: "July" is a month name, yet `extract_city` returns
it from the fallback — the deny-list holds only August/September/October,
so the claim "never returns a month name" fails on the very example
query of the claim. -/
theorem C9_counterexample_july :
    extract_city defaultCities (s2l "demand in July") = some (s2l "July") ∧
    (s2l "july", 7) ∈ monthsTable :=
  ⟨by decide, by decide⟩

/-- C9 (amended): the syntactic fallback never returns one of the three
deny-listed month names August, September, October (nor the other
deny-listed tokens); month names outside the deny-list are returned. -/
theorem C9_fallback_denylist_amended (cities : List Str) (q : Str) (c : Str) (e : Nat)
    (h1 : cityDirect cities (pyStrip (pyLower q)) = none)
    (h2 : cityVariation (pyStrip (pyLower q)) = none)
    (h3 : reFind cityFallbackRE q = some (c, e))
    (h4 : c ∈ [s2l "August", s2l "September", s2l "October"]) :
    extract_city cities q = none := by
  have hig : c ∈ ignoredWords := by
    simp only [List.mem_cons, List.not_mem_nil, or_false] at h4
    rcases h4 with h | h | h <;> subst h <;> decide
  unfold extract_city cityFallback
  simp [h1, h2, h3, hig]

theorem C9_fallback_denylist_amended_witness :
    extract_city defaultCities (s2l "demand in August") = none :=
  C9_fallback_denylist_amended defaultCities (s2l "demand in August") (s2l "August") 16
    (by decide) (by decide) (by decide) (by decide)

/-! ## C6 -/

/-- C6 counterexample: the single-locality gap dispatch sends a fixed
inflation of 6.0 — not the documented default 6.5 — regardless of the
query. -/
theorem C6_counterexample_gap_inflation :
    (gapPredictReq (s2l "Mumbai") (s2l "Bandra") (s2l "2") 30000).economic_indicators.inflation_rate = 6 ∧
    (6 : ℚ) ≠ 6.5 :=
  ⟨by norm_num [gapPredictReq, gapEconConst], by norm_num⟩

/-- C6 (amended): the two demand dispatches (plain and enhanced both build
their body through `demandReq`) fill exactly the unextracted factors with
6.5 / 7.0 / 85.0 and pass extracted ones through; the gap-prediction
dispatch ignores extracted factors entirely and always sends the fixed
indicator block with inflation 6.0; and the extractor returns `none` or a
sparse map whose factors are present only when a matching keyword-anchored
pattern occurs in the text. -/
theorem C6_defaults_amended :
    (∀ (city : Str) (y m : Nat) (ef : Option EF),
      ((ef.getD {}).inflation_rate = none →
        (demandReq city y m ef).economic_factors.inflation_rate = 6.5) ∧
      (∀ v, (ef.getD {}).inflation_rate = some v →
        (demandReq city y m ef).economic_factors.inflation_rate = v) ∧
      ((ef.getD {}).interest_rate = none →
        (demandReq city y m ef).economic_factors.interest_rate = 7) ∧
      (∀ v, (ef.getD {}).interest_rate = some v →
        (demandReq city y m ef).economic_factors.interest_rate = v) ∧
      ((ef.getD {}).employment_rate = none →
        (demandReq city y m ef).economic_factors.employment_rate = 85) ∧
      (∀ v, (ef.getD {}).employment_rate = some v →
        (demandReq city y m ef).economic_factors.employment_rate = v)) ∧
    (∀ (city locality bhk : Str) (rent : Nat),
      (gapPredictReq city locality bhk rent).economic_indicators = gapEconConst ∧
      gapEconConst.inflation_rate = 6) ∧
    (∀ q : Str,
      (extract_economic_factors q = none ∨
        ∃ e, extract_economic_factors q = some e ∧ e ≠ ({} : EF)) ∧
      (∀ e, extract_economic_factors q = some e →
        (e.inflation_rate ≠ none →
          inflationPats.any (fun r => reSearch r (pyLower q)) = true) ∧
        (e.interest_rate ≠ none →
          interestPats.any (fun r => reSearch r (pyLower q)) = true) ∧
        (e.employment_rate ≠ none →
          employmentPats.any (fun r => reSearch r (pyLower q)) = true))) := by
  refine ⟨?_, ?_, ?_⟩
  · intro city y m ef
    refine ⟨?_, ?_, ?_, ?_, ?_, ?_⟩ <;>
      first
      | (intro h; simp [demandReq, mergeDefaults, h]; norm_num)
      | (intro v h; simp [demandReq, mergeDefaults, h])
      | (intro h; simp [demandReq, mergeDefaults, h])
  · intro city locality bhk rent
    exact ⟨rfl, by norm_num [gapEconConst]⟩
  · intro q
    constructor
    · unfold extract_economic_factors
      split
      · exact Or.inl rfl
      · next hne => exact Or.inr ⟨_, rfl, hne⟩
    · intro e he
      unfold extract_economic_factors at he
      split at he
      · exact absurd he (by simp)
      · have hee := Option.some.inj he
        refine ⟨?_, ?_, ?_⟩ <;> intro hne
        · rcases hfe : (e.inflation_rate) with _ | v
          · exact absurd hfe hne
          · exact factorVal_any _ _ _ _ v (by rw [← hee] at hfe; simpa using hfe)
        · rcases hfe : (e.interest_rate) with _ | v
          · exact absurd hfe hne
          · exact factorVal_any _ _ _ _ v (by rw [← hee] at hfe; simpa using hfe)
        · rcases hfe : (e.employment_rate) with _ | v
          · exact absurd hfe hne
          · exact factorVal_any _ _ _ _ v (by rw [← hee] at hfe; simpa using hfe)

theorem C6_defaults_amended_witness :
    (demandReq (s2l "Mumbai") 2024 8 none).economic_factors.inflation_rate = 6.5 ∧
    (demandReq (s2l "Mumbai") 2024 8 (some { inflation_rate := some 8 })).economic_factors.inflation_rate = 8 ∧
    inflationPats.any (fun r => reSearch r (pyLower (s2l "with 8% inflation"))) = true :=
  ⟨(C6_defaults_amended.1 (s2l "Mumbai") 2024 8 none).1 rfl,
   ((C6_defaults_amended.1 (s2l "Mumbai") 2024 8 (some { inflation_rate := some 8 })).2.1 8 rfl),
   (((C6_defaults_amended.2.2 (s2l "with 8% inflation")).2
      { inflation_rate := some 8 } (by decide)).1 (by decide))⟩

/-! ## C4 -/

/-- C4 counterexample: on a well-formed two-month historical reply the
`historical` branch of `generate_response` *stores* a trend of +100% into
the dialogue state — refuting that every branch leaves the state
unchanged. -/
theorem C4_counterexample_historical_mutates :
    (generateResponse {} "historical" dHistC4 []).2.last_trend = some 100 ∧
    ({} : St).last_trend = none := by
  refine ⟨?_, rfl⟩
  show (histBranch none dHistC4).2 = some 100
  unfold histBranch dHistC4 histApril histMay
  norm_num

set_option maxHeartbeats 2000000 in
theorem generateResponse_frame (st : St) (intent : String) (d : ApiResult) (q : Str)
    (r : Option Str) (st' : St) (h : generateResponse st intent d q = (r, st')) :
    (st'.last_city = st.last_city ∧ st'.last_intent = st.last_intent ∧
     st'.conversation_history = st.conversation_history ∧
     st'.user_name = st.user_name) ∧
    (intent ≠ "historical" → st' = st) := by
  unfold generateResponse at h
  split_ifs at h with h1 h2 h3 h4 h5 h6 h7 h8 h9 h10 h11 <;>
    injection h with hr hs <;>
    subst hs <;>
    first
    | exact ⟨⟨rfl, rfl, rfl, rfl⟩, fun _ => rfl⟩
    | exact ⟨⟨rfl, rfl, rfl, rfl⟩, fun hne => absurd h6 hne⟩

/-- C4 (amended): `generate_response` is a function of its arguments plus
the dialogue state it reads; it never changes `last_city`, `last_intent`,
the conversation history or `user_name`, and outside the `historical`
branch it returns the state untouched. -/
theorem C4_frame_amended (st : St) (intent : String) (d : ApiResult) (q : Str) :
    ((generateResponse st intent d q).2.last_city = st.last_city ∧
     (generateResponse st intent d q).2.last_intent = st.last_intent ∧
     (generateResponse st intent d q).2.conversation_history = st.conversation_history ∧
     (generateResponse st intent d q).2.user_name = st.user_name) ∧
    (intent ≠ "historical" → (generateResponse st intent d q).2 = st) :=
  generateResponse_frame st intent d q (generateResponse st intent d q).1
    (generateResponse st intent d q).2 rfl

theorem C4_frame_amended_witness :
    (generateResponse {} "gap_analysis" {} []).2 = {} :=
  (C4_frame_amended {} "gap_analysis" {} []).2 (by decide)

end DatathonChat
namespace DatathonChat

/-! ## C2 -/

/-- C2 (code bug): on the `low_demand` path a well-formed collaborator
reply with an *empty* `locality_data` list makes the fallback f-string
evaluate `area_descriptions[-1]` on an empty list — `IndexError` — so
`chat` raises instead of returning a string. -/
theorem C2_low_demand_empty_list_exception :
    (chat ctx0 orcEmptyGapList {} (s2l "low demand in Mumbai")).1 = none ∧
    orcEmptyGapList.gapListReply (s2l "Mumbai") 50 "gap_high" =
      some { locality_data := some [] } :=
  ⟨by decide, rfl⟩

/-! ## C5 -/

set_option maxRecDepth 8000 in
/-- C5 counterexample: on the clarifying-prompt path the query has already
been appended to `conversation_history` — the dialogue state is *not*
"exactly as before the call". -/
theorem C5_counterexample_history_appended :
    chat ctx0 orcEmptyGapList {} (s2l "gap analysis please") =
      (some (clarifyText ctx0),
       { last_city := none, last_intent := none, last_trend := none,
         conversation_history := [s2l "gap analysis please"], user_name := none }, []) ∧
    ({} : St).conversation_history = [] :=
  ⟨by decide, rfl⟩

set_option maxHeartbeats 2000000 in
/-- C5 (amended): with no extractable city, no remembered city, and a
city-scoped intent, `chat` returns the clarifying prompt, performs no
collaborator call, and leaves every dialogue-state field unchanged except
that the raw query is appended to the conversation history (which happens
unconditionally at the top of the turn). -/
theorem C5_clarify_amended (ctx : Ctx) (orc : Oracle) (st : St) (q : Str)
    (h1 : extract_city ctx.cities q = none)
    (h2 : st.last_city = none)
    (h3 : ∀ i ∈ (["greeting", "thank_you", "goodbye", "help",
        "top_cities", "bottom_cities", "top_city", "bottom_city"] : List String),
      (detectIntent st.last_intent st.last_city q).1 ≠ i) :
    chat ctx orc st q =
      (some (clarifyText ctx),
       { st with conversation_history := st.conversation_history ++ [q] }, []) := by
  have hg := h3 "greeting" (by simp)
  have ht := h3 "thank_you" (by simp)
  have hgb := h3 "goodbye" (by simp)
  have hh := h3 "help" (by simp)
  have htc := h3 "top_cities" (by simp)
  have hbc := h3 "bottom_cities" (by simp)
  have htc1 := h3 "top_city" (by simp)
  have hbc1 := h3 "bottom_city" (by simp)
  rw [h2] at hg ht hgb hh htc hbc htc1 hbc1
  unfold chat
  dsimp only
  rw [h1, h2]
  rw [if_neg hg, if_neg ht, if_neg hgb, if_neg hh]
  simp [optFalsy, decide_eq_false htc, decide_eq_false hbc, decide_eq_false htc1,
    decide_eq_false hbc1]

set_option maxRecDepth 8000 in
theorem C5_clarify_amended_witness :
    chat ctx0 orcEmptyGapList {} (s2l "gap analysis please") =
      (some (clarifyText ctx0),
       { ({} : St) with
         conversation_history := ({} : St).conversation_history ++ [s2l "gap analysis please"] },
       []) :=
  C5_clarify_amended ctx0 orcEmptyGapList {} (s2l "gap analysis please")
    (by decide) rfl (by decide)

end DatathonChat
namespace DatathonChat

/-! ## C8 -/

theorem generateResponse_low_gap (st : St) (d : ApiResult) (q : Str) :
    generateResponse st "low_gap" d q = (lowGapBranch d, st) := by
  simp [generateResponse]

/-- C8: when every considered locality has a strictly positive gap, the
`low_gap` rendering states that no oversupplied areas were found and
follows the exact 0/1/N fallback trichotomy (no-areas sentence, singular
"Least undersupplied area", plural "Least undersupplied areas"). -/
theorem C8_low_gap_trichotomy (st : St) (q : Str) (d : ApiResult) (l : List Loc)
    (h1 : d.error = none) (h2 : d.locality_data = some l)
    (h3 : ∀ loc ∈ l.take 5, 0 < loc.gap.getD 1) :
    ∃ r, generateResponse st "low_gap" d q = (some r, st) ∧
      begins (s2l "No oversupplied areas found in ") r = true ∧
      (l = [] → r = s2l "No oversupplied areas found in " ++ d.city.getD (s2l "the city") ++
        s2l ". The market appears to be undersupplied overall.") ∧
      ((l.take 5).length = 1 → hasSub (s2l "Least undersupplied area:") r = true) ∧
      (2 ≤ (l.take 5).length → hasSub (s2l "Least undersupplied areas:") r = true) := by
  have hov : (l.take 5).any (fun loc => decide ((loc.gap.getD 1) < 0)) = false := by
    rw [List.any_eq_false]
    intro loc hm
    simp only [decide_eq_true_eq]
    exact not_lt.mpr (le_of_lt (h3 loc hm))
  rw [generateResponse_low_gap]
  unfold lowGapBranch
  rw [h1, h2]
  simp only [Option.isSome_none, Bool.false_eq_true, if_false, hov]
  cases hcase : l.take 5 with
  | nil =>
    have hlnil : l = [] := by
      rcases (List.take_eq_nil_iff).mp hcase with h | h
      · omega
      · exact h
    refine ⟨_, rfl, ?_, ?_, ?_, ?_⟩
    · rw [List.append_assoc]
      exact begins_append _ _
    · intro _; rfl
    · intro habs; simp at habs
    · intro habs; simp at habs
  | cons a t =>
    cases t with
    | nil =>
      refine ⟨_, rfl, ?_, ?_, ?_, ?_⟩
      · simp only [List.append_assoc]
        exact begins_append _ _
      · intro hl; rw [hl] at hcase; simp at hcase
      · intro hlen
        simp only [List.map_cons, List.map_nil, List.append_assoc]
        apply hasSub_append_left
        apply hasSub_append_left
        apply hasSub_append_left
        exact hasSub_of_begins _ _ (begins_mono _ _ _ (by decide))
      · intro habs; simp at habs
    | cons b t2 =>
      refine ⟨_, rfl, ?_, ?_, ?_, ?_⟩
      · simp only [List.append_assoc]
        exact begins_append _ _
      · intro hl; rw [hl] at hcase; simp at hcase
      · intro habs; simp at habs
      · intro _
        simp only [List.map_cons, List.append_assoc]
        apply hasSub_append_left
        apply hasSub_append_left
        apply hasSub_append_left
        exact hasSub_of_begins _ _ (begins_mono _ _ _ (by decide))

theorem C8_low_gap_trichotomy_witness :
    ∃ r, generateResponse {} "low_gap" c8Data [] = (some r, {}) ∧
      begins (s2l "No oversupplied areas found in ") r = true ∧
      (([c8LocA, c8LocB] : List Loc) = [] →
        r = s2l "No oversupplied areas found in " ++ c8Data.city.getD (s2l "the city") ++
          s2l ". The market appears to be undersupplied overall.") ∧
      (([c8LocA, c8LocB].take 5).length = 1 →
        hasSub (s2l "Least undersupplied area:") r = true) ∧
      (2 ≤ ([c8LocA, c8LocB].take 5).length →
        hasSub (s2l "Least undersupplied areas:") r = true) :=
  C8_low_gap_trichotomy {} [] c8Data [c8LocA, c8LocB] rfl rfl
    (by
      intro loc hm
      fin_cases hm <;> norm_num [c8LocA, c8LocB])

end DatathonChat
namespace DatathonChat

/-! ## C10 -/

theorem rankings_calls_no_gap_predict (orc : Oracle) (top : Bool) (n : Nat) :
    ∀ c ∈ (get_city_rankings orc top n).2, c.isGapPredict = false := by
  unfold get_city_rankings
  cases orc.citiesReply with
  | none =>
    intro c hc
    simp only [List.mem_singleton] at hc
    subst hc; rfl
  | some rep =>
    intro c hc
    simp only [List.mem_cons] at hc
    rcases hc with rfl | hmem
    · rfl
    · rcases List.mem_map.mp hmem with ⟨x, _, rfl⟩
      rfl

set_option maxHeartbeats 4000000 in
theorem chatDispatch_no_gap_predict (ctx : Ctx) (orc : Oracle) (st2 : St)
    (note : Str) (intent : String) (cityS : Str) (q : Str) :
    ∀ c ∈ (chatDispatch ctx orc st2 note intent cityS q).2.2, c.isGapPredict = false := by
  intro c hc
  unfold chatDispatch at hc
  dsimp only at hc
  split_ifs at hc
  all_goals try exact absurd hc (List.not_mem_nil c)
  all_goals try exact rankings_calls_no_gap_predict orc true 5 c hc
  all_goals try exact rankings_calls_no_gap_predict orc false 5 c hc
  all_goals try exact rankings_calls_no_gap_predict orc true 1 c hc
  all_goals try exact rankings_calls_no_gap_predict orc false 1 c hc
  all_goals try (rcases List.mem_append.mp hc with h | h <;>
    rw [List.mem_singleton.mp h] <;> rfl)
  all_goals (rw [List.mem_singleton.mp hc]; rfl)

/-- C10: `chat` never requests the single-locality gap-service `/predict`
endpoint — every collaborator call of every turn, for every oracle and
state, is something other than a `gapPredict` call (the three gap-service
dispatch paths always pass `locality=None`, so only the list endpoint is
requested, and the locality extracted on the `low_gap` path is discarded). -/
theorem C10_no_single_locality_gap_call (ctx : Ctx) (orc : Oracle) (st : St) (q : Str) :
    ∀ c ∈ (chat ctx orc st q).2.2, c.isGapPredict = false := by
  intro c hc
  unfold chat at hc
  dsimp only at hc
  split_ifs at hc
  all_goals try exact absurd hc (List.not_mem_nil c)
  all_goals exact chatDispatch_no_gap_predict _ _ _ _ _ _ _ c hc

theorem C10_no_single_locality_gap_call_witness :
    (ApiCall.gapList (s2l "Mumbai") 50 "gap_high").isGapPredict = false :=
  C10_no_single_locality_gap_call ctx0 orcEmptyGapList {} (s2l "low demand in Mumbai")
    (.gapList (s2l "Mumbai") 50 "gap_high") (by decide)

end DatathonChat
namespace DatathonChat

/-! ## C3 -/

theorem generalStage_eq_spec (ql : Str) : generalStage ql = generalAmendedSpec ql := by
  have q08 : (0 : ℚ) < 0.8 := by norm_num
  have q06 : (0 : ℚ) < 0.6 := by norm_num
  have q68 : (0.6 : ℚ) < 0.8 := by norm_num
  have n86 : ¬ ((0.8 : ℚ) < 0.6) := by norm_num
  have n88 : ¬ ((0.8 : ℚ) < 0.8) := by norm_num
  have n66 : ¬ ((0.6 : ℚ) < 0.6) := by norm_num
  unfold generalStage generalAmendedSpec generalFirstMatch intentCatalog
  by_cases h1 : anyMatch greetingPats ql
  · simp [genStep, h1, foldl_keep, List.find?, n86, n88, n66, q08]
  by_cases h2 : anyMatch thankYouPats ql
  · simp [genStep, h1, h2, foldl_keep, List.find?, n86, n88, n66, q08]
  by_cases h3 : anyMatch goodbyePats ql
  · simp [genStep, h1, h2, h3, foldl_keep, List.find?, n86, n88, n66, q08]
  by_cases h4 : anyMatch demandPats ql
  · simp [genStep, h1, h2, h3, h4, foldl_keep, List.find?, n86, n88, n66, q08]
  by_cases h5 : anyMatch gapPats ql
  · simp [genStep, h1, h2, h3, h4, h5, foldl_keep, List.find?, n86, n88, n66, q08]
  by_cases h6 : anyMatch lowGapPats ql
  · simp [genStep, h1, h2, h3, h4, h5, h6, foldl_keep, List.find?, n86, n88, n66, q08]
  by_cases h7 : anyMatch topCitiesPats ql
  · simp [genStep, h1, h2, h3, h4, h5, h6, h7, foldl_keep, List.find?, n86, n88, n66, q08]
  by_cases h8 : anyMatch bottomCitiesPats ql
  · simp [genStep, h1, h2, h3, h4, h5, h6, h7, h8, foldl_keep, List.find?, n86, n88, n66, q08]
  by_cases h9 : anyMatch topCityPats ql
  · simp [genStep, h1, h2, h3, h4, h5, h6, h7, h8, h9, foldl_keep, List.find?, n86, n88, n66, q08]
  by_cases h10 : anyMatch bottomCityPats ql
  · simp [genStep, h1, h2, h3, h4, h5, h6, h7, h8, h9, h10, foldl_keep, List.find?, n86, n88, n66, q08]
  by_cases h11 : anyMatch lowDemandPats ql
  · simp [genStep, h1, h2, h3, h4, h5, h6, h7, h8, h9, h10, h11, foldl_keep, List.find?, n86, n88, n66, q08]
  by_cases h12 : anyMatch historicalPats ql
  · simp [genStep, h1, h2, h3, h4, h5, h6, h7, h8, h9, h10, h11, h12, foldl_keep,
      List.find?, n86, n88, n66, q08]
  by_cases h13 : anyMatch helpPats ql
  · by_cases h14 : anyMatch tenantQualityPats ql
    · simp [genStep, h1, h2, h3, h4, h5, h6, h7, h8, h9, h10, h11, h12, h13, h14,
        List.find?, n86, n88, n66, q06, q68]
    · simp [genStep, h1, h2, h3, h4, h5, h6, h7, h8, h9, h10, h11, h12, h13, h14,
        List.find?, n86, n88, n66, q06]
  by_cases h14 : anyMatch tenantQualityPats ql
  · simp [genStep, h1, h2, h3, h4, h5, h6, h7, h8, h9, h10, h11, h12, h13, h14,
      List.find?, n86, n88, n66, q08]
  · simp [genStep, h1, h2, h3, h4, h5, h6, h7, h8, h9, h10, h11, h12, h13, h14,
      List.find?, n86, n88, n66]

/-- C3 (amended): in the general pattern stage the first matching intent,
in catalog order, wins with confidence 0.8 (0.6 for `help`) — *except*
that a first match of `help` is overridden by `tenant_quality` (declared
after `help`; its 0.8 beats the 0.6 of help) whenever a tenant-quality pattern
also matches; no match gives `("unknown", 0)`. -/
theorem C3_general_stage_amended (ql : Str) : generalStage ql = generalAmendedSpec ql :=
  generalStage_eq_spec ql

theorem C3_general_stage_amended_witness :
    generalStage (s2l "hello") = generalAmendedSpec (s2l "hello") :=
  C3_general_stage_amended (s2l "hello")

/-- C3 counterexample: for "help tenant quality a" the first intent with a
matching pattern is `help`, yet the general stage — and `detect_intent`
end to end, with empty dialogue state — returns `("tenant_quality", 0.8)`
rather than `("help", 0.6)`: the 0.8 of the later intent beats the 0.6 of `help`. -/
theorem C3_counterexample_help_override :
    generalFirstMatch (s2l "help tenant quality a") = some "help" ∧
    generalStage (s2l "help tenant quality a") = ("tenant_quality", 0.8) ∧
    detectIntent none none (s2l "help tenant quality a") = ("tenant_quality", 0.8) := by
  have hfm : generalFirstMatch (s2l "help tenant quality a") = some "help" := by decide
  have htq : anyMatch tenantQualityPats (s2l "help tenant quality a") = true := by decide
  have hgs : generalStage (s2l "help tenant quality a") = ("tenant_quality", 0.8) := by
    rw [generalStage_eq_spec]
    unfold generalAmendedSpec
    rw [hfm]
    simp [htq]
  refine ⟨hfm, hgs, ?_⟩
  have hq : qlow (s2l "help tenant quality a") = s2l "help tenant quality a" := by decide
  have e1 : (has_bhk (s2l "help tenant quality a") ||
      has_rent (s2l "help tenant quality a")) = false := by decide
  have e2 : hasSub (s2l "adjusted") (s2l "help tenant quality a") = false := by decide
  have e3 : (reSearch p16aRE (s2l "help tenant quality a") ||
      reSearch p16bRE (s2l "help tenant quality a") ||
      reSearch p16cRE (s2l "help tenant quality a")) = false := by decide
  have e4 : reSearch pTop1RE (s2l "help tenant quality a") = false := by decide
  have e5 : reSearch pBot1RE (s2l "help tenant quality a") = false := by decide
  have e6 : reSearch pBotARE (s2l "help tenant quality a") = false := by decide
  have e7 : reSearch pBotBRE (s2l "help tenant quality a") = false := by decide
  have e8 : reSearch pTopARE (s2l "help tenant quality a") = false := by decide
  have e9 : reSearch pTopBRE (s2l "help tenant quality a") = false := by decide
  have e10 : reSearch pMultiRE (s2l "help tenant quality a") = false := by decide
  have e11 : hasSub (s2l "gap") (s2l "help tenant quality a") = false := by decide
  have e12 : hasSub (s2l "low") (s2l "help tenant quality a") = false := by decide
  have e13 : hasSub (s2l "oversuppl") (s2l "help tenant quality a") = false := by decide
  have e14 : hasSub (s2l "undersuppl") (s2l "help tenant quality a") = false := by decide
  unfold detectIntent
  rw [hq]
  simp [e1, e2, e3, e4, e5, e6, e7, e8, e9, e10, e11, e12, e13, e14, optFalsyS, hgs]

end DatathonChat
